import Mathlib

/-!
Verification of the direct table-handle subsystem (HANDLER commands) of
sql/sql_handler.cc: the per-session handle cache, the scan-mode state
machine of mysql_ha_read, the re-open / retry protocol, the ambient
context swap of mysql_ha_open and the flush invalidation pass.

The C code is shallowly embedded: collaborator calls (open_tables,
mysql_lock_tables, the storage-engine positioning primitives, the
protocol layer) are modelled by explicit outcome parameters, and the
per-session state (handler_tables_hash, thd->open_tables,
thd->handler_tables, the two MDL contexts) by a record of lists.
-/

namespace SqlHandler

/-- Rows are abstract; only identity matters for the row-loop claims. -/
abbrev Row := Nat

/-- Scan request modes, enum enum_ha_read_modes of the source
(RNEXT, RFIRST, RPREV, RLAST, RNEXT_SAME, RKEY). The declaration itself
lives outside src/ (sql_lex.h); the constructor set is taken from the uses
in mysql_ha_read's switch. -/
inductive ReadMode
  | RNEXT | RFIRST | RPREV | RLAST | RNEXT_SAME | RKEY
deriving DecidableEq, Repr

/-- Modelled from the spec: enum ha_rkey_function (my_base.h, not under
src/). The spec's comparator names are used; the numeric order below is
the order of the spec's 8-entry table, which is the order the static
array rkey_to_rnext of sql_handler.cc is indexed by:
Exact = HA_READ_KEY_EXACT (0), GreaterOrEqual = HA_READ_KEY_OR_NEXT (1),
LessOrEqual = HA_READ_KEY_OR_PREV (2), StrictlyGreater = HA_READ_AFTER_KEY (3),
StrictlyLess = HA_READ_BEFORE_KEY (4), PrefixFirst = HA_READ_PREFIX (5),
PrefixLast = HA_READ_PREFIX_LAST (6), PrefixLastOrLess =
HA_READ_PREFIX_LAST_OR_PREV (7). -/
inductive RkeyFunction
  | Exact | GreaterOrEqual | LessOrEqual | StrictlyGreater
  | StrictlyLess | PrefixFirst | PrefixLast | PrefixLastOrLess
deriving DecidableEq, Repr

/-- Numeric value of the comparator, as used to index rkey_to_rnext. -/
def RkeyFunction.toNat : RkeyFunction → Nat
  | .Exact => 0
  | .GreaterOrEqual => 1
  | .LessOrEqual => 2
  | .StrictlyGreater => 3
  | .StrictlyLess => 4
  | .PrefixFirst => 5
  | .PrefixLast => 6
  | .PrefixLastOrLess => 7

/-- The static continuation array of sql_handler.cc:
{ RNEXT_SAME, RNEXT, RPREV, RNEXT, RPREV, RNEXT, RPREV, RPREV }. -/
def rkey_to_rnext_table : List ReadMode :=
  [.RNEXT_SAME, .RNEXT, .RPREV, .RNEXT, .RPREV, .RNEXT, .RPREV, .RPREV]

/-- Lookup rkey_to_rnext[(int)ha_rkey_mode]; the default is never reached
since toNat < 8. -/
def rkey_to_rnext (c : RkeyFunction) : ReadMode :=
  rkey_to_rnext_table.getD c.toNat .RNEXT

/-- The storage-engine positioning primitive invoked by one iteration of
the row loop of mysql_ha_read. rnd_init_next stands for the full-scan
branch ha_rnd_init(1) followed by rnd_next. -/
inductive Primitive
  | index_next | rnd_next | index_first | rnd_init_next
  | index_prev | index_last | index_next_same
  | index_read_map (c : RkeyFunction)
deriving DecidableEq, Repr

/-- RFIRST case body of the switch in mysql_ha_read: end any active scan,
init the index or the full scan, position first; mode becomes RNEXT. -/
def stepFirst (keyname : Bool) : Primitive × ReadMode :=
  if keyname then (.index_first, .RNEXT) else (.rnd_init_next, .RNEXT)

/-- RLAST case body: end any active scan, init the index scan, position
last; mode becomes RPREV. -/
def stepLast : Primitive × ReadMode :=
  (.index_last, .RPREV)

/-- One dispatch of the switch (mode) statement in mysql_ha_read's row
loop: given the current mode, the key-seek comparator argument (used only
by RKEY), whether a key name was given, and whether a scan is active on
the cursor (table->file->inited != handler::NONE), it yields the
positioning primitive invoked and the mode variable's value after the
case body ran. RNEXT and RPREV with no active scan fall through to
RFIRST and RLAST respectively, exactly as the C switch does. -/
def scanStep : ReadMode → RkeyFunction → Bool → Bool → Primitive × ReadMode
  | .RNEXT, _, keyname, inited =>
      if inited then
        (if keyname then (.index_next, .RNEXT) else (.rnd_next, .RNEXT))
      else stepFirst keyname
  | .RFIRST, _, keyname, _ => stepFirst keyname
  | .RPREV, _, _, inited =>
      if inited then (.index_prev, .RPREV) else stepLast
  | .RLAST, _, _, _ => stepLast
  | .RNEXT_SAME, _, _, _ => (.index_next_same, .RNEXT_SAME)
  | .RKEY, c, _, _ => (.index_read_map c, rkey_to_rnext c)

/-- Outcome of one positioning-primitive invocation inside the row loop
(the return value of index_next / rnd_next / ... in the source):
a fetched row, HA_ERR_RECORD_DELETED, HA_ERR_KEY_NOT_FOUND,
HA_ERR_END_OF_FILE, or any other engine error code. -/
inductive FetchRes
  | row (r : Row) | deleted | keyNotFound | eof | engineErr (code : Nat)
deriving DecidableEq, Repr

/-- Result of the row loop: clean stop with the rows sent (DBUG_RETURN
FALSE after goto ok), an engine error surfaced after sending some rows
(goto err), a protocol send failure (goto err inside the loop), or
starvation, meaning the supplied fetch stream ran out while the loop
would still have iterated (a modelling artifact: theorems always supply
enough of the stream). -/
inductive LoopOut
  | ok (sent : List Row)
  | errEngine (code : Nat) (sent : List Row)
  | errSend (sent : List Row)
  | starved
deriving DecidableEq, Repr

/-- Evaluation of the optional row predicate: cond absent accepts every
row (the source only evaluates cond when it is non-null). -/
def condApp (cond : Option (Row → Bool)) (r : Row) : Bool :=
  match cond with
  | some c => c r
  | none => true

/-- The row production loop of mysql_ha_read, lines 593-713 of the
source: for (num_rows=0; num_rows < select_limit_cnt;) invoke the mode's
primitive (abstracted as the next element of the fetch stream; which
primitive is chosen is the subject of scanStep); on HA_ERR_RECORD_DELETED
continue without counting; on HA_ERR_KEY_NOT_FOUND or
HA_ERR_END_OF_FILE goto ok with the rows sent so far; on any other error
goto err; a fetched row failing cond is skipped without counting; a
counted row is sent to the protocol only when num_rows >= offset_limit_cnt
(send failure is goto err), and num_rows is incremented either way. -/
def haReadRows (cond : Option (Row → Bool)) (sendOk : Row → Bool)
    (limit offset : Nat) : List FetchRes → Nat → List Row → LoopOut
  | [], n, sent => if limit ≤ n then .ok sent.reverse else .starved
  | f :: rest, n, sent =>
    if limit ≤ n then .ok sent.reverse
    else
      match f with
      | .deleted => haReadRows cond sendOk limit offset rest n sent
      | .keyNotFound => .ok sent.reverse
      | .eof => .ok sent.reverse
      | .engineErr c => .errEngine c sent.reverse
      | .row r =>
        if condApp cond r then
          if offset ≤ n then
            if sendOk r then haReadRows cond sendOk limit offset rest (n + 1) (r :: sent)
            else .errSend sent.reverse
          else haReadRows cond sendOk limit offset rest (n + 1) sent
        else haReadRows cond sendOk limit offset rest n sent

/-- Recogniser for plain row fetches (neither an error nor a deleted
record). -/
def isRowFetch : FetchRes → Bool
  | .row _ => true
  | _ => false

/-- The rows of a fetch stream that match the optional predicate, in
stream order. -/
def matchRows (cond : Option (Row → Bool)) (fetches : List FetchRes) : List Row :=
  fetches.filterMap fun f =>
    match f with
    | .row r => if condApp cond r then some r else none
    | _ => none

/-- Modelled from the spec: the SQL-layer caller of mysql_ha_read
(mysql_execute_command's SQLCOM_HA_READ case together with
st_select_lex_unit::set_limit, both outside src/) passes
select_limit_cnt = limit + offset and offset_limit_cnt = offset to
mysql_ha_read, so that, as the spec states, the offset suppresses the
first matches without stopping the scan and the row limit stops the
loop once satisfied. -/
def ha_read_with_limit (cond : Option (Row → Bool)) (L O : Nat)
    (fetches : List FetchRes) : LoopOut :=
  haReadRows cond (fun _ => true) (L + O) O fetches 0 []

/-- A TABLE object as far as this subsystem observes it: its identity
(used for the pointer comparisons of the source), its MDL ticket, the two
flush-invalidation flags read by mysql_ha_flush, the HA_CAN_SQL_HANDLER
capability and the open_by_handler mark. -/
structure Table where
  id : Nat
  mdlTicket : Option Nat
  pendingConflict : Bool
  needsReopen : Bool
  canSqlHandler : Bool
  openByHandler : Bool
  /-- Abstract scan state of the cursor (file->inited together with the
  engine-side position); carried so that frame claims can state that an
  untouched entry keeps its scan state. -/
  scanState : Nat
deriving DecidableEq, Repr

/-- A TABLE_LIST object as stored in thd->handler_tables_hash: the name
triple, the schema_table flag, and the table pointer (none when the
handler table is closed / invalidated). -/
structure Entry where
  db : String
  tableName : String
  aliasName : String
  schemaTable : Bool
  table : Option Table
deriving DecidableEq, Repr

/-- The per-session state this subsystem reads and writes: the handler
hash (cache), the ambient open-table list and ambient MDL context, the
handler_tables list and handler_mdl_context, the multiset of physically
open table objects (liveObjs, tracking which engine objects are open so
that the all-or-nothing claims can be stated), and the
locked_tables_mode flag. -/
structure THD where
  cache : List Entry
  openTables : List Table
  handlerTables : List Table
  mdlContext : List Nat
  handlerMdl : List Nat
  liveObjs : List Nat
  lockedTablesMode : Bool
deriving DecidableEq, Repr

/-- my_hash_search on handler_tables_hash by alias. -/
def lookupEntry (cache : List Entry) (a : String) : Option Entry :=
  cache.find? (fun e => e.aliasName == a)

/-- In-place mutation of the hash entry with the given alias. -/
def updateEntry (cache : List Entry) (a : String) (f : Entry → Entry) :
    List Entry :=
  cache.map (fun e => if e.aliasName == a then f e else e)

/-- my_hash_delete of the entry with the given alias. -/
def removeAlias (cache : List Entry) (a : String) : List Entry :=
  cache.eraseP (fun e => e.aliasName == a)

/-- Closing a set of table objects at once (close_thread_tables). -/
def removeIds (l : List Nat) (ids : List Nat) : List Nat :=
  l.filter (fun x => !(ids.contains x))

/-- mysql_ha_close_table: if the entry's table is on thd->handler_tables,
end its scan, close it (close_thread_table) and release its MDL ticket
from handler_mdl_context; otherwise (a temporary table, or a table
already closed elsewhere) only end the scan and drop the mark. Either
way the entry's table pointer is set to NULL, ready for re-open. -/
def mysql_ha_close_table (thd : THD) (e : Entry) : THD × Entry :=
  match e.table with
  | none => (thd, { e with table := none })
  | some t =>
    if thd.handlerTables.any (fun h => h.id == t.id) then
      ({ thd with
          handlerTables := thd.handlerTables.eraseP (fun h => h.id == t.id),
          liveObjs := thd.liveObjs.erase t.id,
          handlerMdl :=
            match t.mdlTicket with
            | some tk => thd.handlerMdl.erase tk
            | none => thd.handlerMdl },
        { e with table := none })
    else
      (thd, { e with table := none })

/-- Collaborator outcomes consumed by one mysql_ha_open call: whether
my_multi_malloc and my_hash_insert succeed, whether open_tables reports
an error, the list of table objects open_tables materialises (on
thd->open_tables when it returns) and the MDL tickets it acquires into
the (temporarily emptied) ambient MDL context. -/
structure OpenEnv where
  mallocOk : Bool
  insertOk : Bool
  otError : Bool
  otTables : List Table
  otTickets : List Nat
deriving DecidableEq, Repr

/-- Error conditions of mysql_ha_open. ER_ILLEGAL_HA is raised both for
a multi-table open (MERGE-like engines) and for an engine without
HA_CAN_SQL_HANDLER, exactly as in the source. -/
inductive OpenError
  | lockedTables
  | wrongUsage
  | nonuniqTable
  | outOfMemory
  | hashInsertFail
  | openTablesFail
  | illegalHA
deriving DecidableEq, Repr

/-- The err label of mysql_ha_open: close the entry's table if one was
opened, and for a non-reopen call delete the freshly inserted hash
entry. -/
def openErr (thd : THD) (a : String) (reopen : Bool) (tag : OpenError) :
    THD × Option OpenError :=
  let thd1 :=
    match lookupEntry thd.cache a with
    | some e =>
      if e.table.isSome then
        let p := mysql_ha_close_table thd e
        { p.1 with cache := updateEntry p.1.cache a (fun _ => p.2) }
      else thd
    | none => thd
  let thd2 :=
    if reopen then thd1 else { thd1 with cache := removeAlias thd1.cache a }
  (thd2, some tag)

/-- Body of mysql_ha_open from the ambient-context swap onward: save
thd->open_tables and the ambient MDL context, install empty ones, run
open_tables (which materialises env.otTables, acquires env.otTickets and
sets the hash entry's table pointer to the first opened object), close
everything and fail with ER_ILLEGAL_HA when more than one physical
object was opened, otherwise link the single object into
thd->handler_tables; merge the acquired tickets into
handler_mdl_context, restore the ambient context, and check
HA_CAN_SQL_HANDLER, marking the table open_by_handler on success. -/
def openPhase2 (thd0 : THD) (a : String) (reopen : Bool) (env : OpenEnv) :
    THD × Option OpenError :=
  let backupOpen := thd0.openTables
  let backupMdl := thd0.mdlContext
  let thd1 : THD :=
    { thd0 with
        openTables := env.otTables,
        mdlContext := env.otTickets,
        liveObjs := thd0.liveObjs ++ env.otTables.map (fun t => t.id),
        cache := updateEntry thd0.cache a
          (fun e => { e with table := env.otTables.head? }) }
  let step2 : THD × Bool × Bool :=
    match env.otTables with
    | [] => (thd1, env.otError, false)
    | [t] => ({ thd1 with handlerTables := t :: thd1.handlerTables },
              env.otError, false)
    | _ => ({ thd1 with
                liveObjs := removeIds thd1.liveObjs
                  (env.otTables.map (fun t => t.id)),
                openTables := [], mdlContext := [] }, true, true)
  let thd2 := step2.1
  let error := step2.2.1
  let multi := step2.2.2
  let thd3 : THD :=
    { thd2 with
        handlerMdl := thd2.handlerMdl ++ thd2.mdlContext,
        openTables := backupOpen,
        mdlContext := backupMdl }
  if error then
    openErr thd3 a reopen (if multi then .illegalHA else .openTablesFail)
  else
    match (lookupEntry thd3.cache a).bind (fun e => e.table) with
    | none =>
      -- a successful open_tables always yields a table object; this
      -- branch is unreachable for a well-behaved collaborator and is
      -- routed through the error exit
      openErr thd3 a reopen .openTablesFail
    | some t =>
      if t.canSqlHandler then
        ({ thd3 with
            cache := updateEntry thd3.cache a
              (fun e => { e with table := some { t with openByHandler := true } }),
            handlerTables := thd3.handlerTables.map
              (fun h => if h.id == t.id then { h with openByHandler := true } else h) },
          none)
      else openErr thd3 a reopen .illegalHA

/-- mysql_ha_open: reject under locked_tables_mode and for information
schema names; for a fresh open, fail on a duplicate alias, allocate and
insert the copied hash entry (with a NULL table pointer); for a re-open
the hash entry is the given one; then run the context-swapped open
body. -/
def mysql_ha_open (thd : THD) (tables : Entry) (reopen : Bool)
    (env : OpenEnv) : THD × Option OpenError :=
  if thd.lockedTablesMode then (thd, some .lockedTables)
  else if tables.schemaTable then (thd, some .wrongUsage)
  else if reopen then openPhase2 thd tables.aliasName true env
  else if (lookupEntry thd.cache tables.aliasName).isSome then
    (thd, some .nonuniqTable)
  else if !env.mallocOk then (thd, some .outOfMemory)
  else if !env.insertOk then (thd, some .hashInsertFail)
  else
    openPhase2
      { thd with cache := thd.cache ++ [{ tables with table := none }] }
      tables.aliasName false env

/-- Error conditions of mysql_ha_close. -/
inductive CloseError
  | lockedTables
  | unknownTable
deriving DecidableEq, Repr

/-- mysql_ha_close: reject under locked_tables_mode; close the hashed
entry's table and delete the entry from the hash, or fail with
ER_UNKNOWN_TABLE when the alias is not hashed. -/
def mysql_ha_close (thd : THD) (a : String) : THD × Option CloseError :=
  if thd.lockedTablesMode then (thd, some .lockedTables)
  else
    match lookupEntry thd.cache a with
    | some e =>
      let p := mysql_ha_close_table thd e
      ({ p.1 with cache := removeAlias p.1.cache a }, none)
    | none => (thd, some .unknownTable)

/-- The condition under which mysql_ha_flush closes an entry: its table
pointer is set and either the table has an MDL ticket with a pending
conflicting lock, or its share is marked as needing reopen. -/
def flushFlag (e : Entry) : Bool :=
  match e.table with
  | some t => (t.mdlTicket.isSome && t.pendingConflict) || t.needsReopen
  | none => false

/-- mysql_ha_flush: walk every hashed entry and mysql_ha_close_table
exactly those satisfying flushFlag; the hash itself is never shrunk. -/
def mysql_ha_flush (thd : THD) : THD :=
  let p := thd.cache.foldl
    (fun (acc : THD × List Entry) e =>
      if flushFlag e then
        let q := mysql_ha_close_table acc.1 e
        (q.1, q.2 :: acc.2)
      else (acc.1, e :: acc.2))
    (thd, [])
  { p.1 with cache := p.2.reverse }

/-- Instrumentation of one mysql_ha_read call: how many internal
re-opens, mysql_lock_tables calls and mysql_ha_close_table calls it
performed. -/
structure Stats where
  reopens : Nat
  lockAttempts : Nat
  closes : Nat
deriving DecidableEq, Repr

/-- All counters zero. -/
def stats0 : Stats := ⟨0, 0, 0⟩

/-- Collaborator outcomes for one iteration of the retry loop of
mysql_ha_read: the open outcomes consumed if the entry needs a re-open,
the need_reopen out-parameter of mysql_lock_tables, and whether the lock
itself was granted. -/
structure ReadIterEnv where
  openEnv : OpenEnv
  needReopen : Bool
  lockOk : Bool
deriving DecidableEq, Repr

/-- Collaborator outcomes consumed after the lock is held: whether
cond->fix_fields / check_cols succeed, whether find_type resolves the
key name, whether insert_fields succeeds, and the fetch stream produced
by the positioning primitives of the row loop. -/
structure ReadEnv where
  condFixOk : Bool
  keynoOk : Bool
  insertFieldsOk : Bool
  fetches : List FetchRes
deriving DecidableEq, Repr

/-- Error conditions of mysql_ha_read. -/
inductive ReadErrTag
  | lockedTables
  | unknownTable
  | reopenFail
  | lockFail
  | condError
  | keyDoesNotExist
  | insertFieldsFail
  | engineFail
  | sendFail
deriving DecidableEq, Repr

/-- Result of mysql_ha_read: success with the rows sent, an error after
sending some rows, or starvation of the supplied collaborator outcomes
(the modelling image of the loop still running). -/
inductive ReadOutcome
  | ok (rows : List Row)
  | err (tag : ReadErrTag) (rows : List Row)
  | starved
deriving DecidableEq, Repr

/-- The post-lock part of mysql_ha_read, lines 559-713 of the source:
fix the optional condition, resolve the key name, expand the field list,
send the metadata, then run the row loop. It touches no session state
modelled here, so only the outcome is produced. -/
def readBodyOut (keyname : Bool) (cond : Option (Row → Bool))
    (sendOk : Row → Bool) (limit offset : Nat) (env : ReadEnv) :
    ReadOutcome :=
  if cond.isSome && !env.condFixOk then .err .condError []
  else if keyname && !env.keynoOk then .err .keyDoesNotExist []
  else if !env.insertFieldsOk then .err .insertFieldsFail []
  else
    match haReadRows cond sendOk limit offset env.fetches 0 [] with
    | .ok rows => .ok rows
    | .errEngine _ rows => .err .engineFail rows
    | .errSend rows => .err .sendFail rows
    | .starved => .starved

/-- The retry loop of mysql_ha_read starting at the retry label: look the
alias up in the hash (ER_UNKNOWN_TABLE when absent); if the entry's
table pointer is NULL, re-open it with mysql_ha_open(reopen = true),
surfacing a failure of that open; call mysql_lock_tables (the ambient
open-table list is swapped to handler_tables for the call and restored
right after, a net identity on thd); if need_reopen was reported, close
the handler table (mysql_ha_close_table, also resetting
some_tables_deleted) and restart from the lookup; if the lock is NULL,
fail; otherwise run the post-lock body. One ReadIterEnv is consumed per
loop iteration; the supplied list exhausting while the loop would
continue yields the starved marker. -/
def readRetry (a : String) (keyname : Bool) (cond : Option (Row → Bool))
    (sendOk : Row → Bool) (limit offset : Nat) (env : ReadEnv) :
    THD → List ReadIterEnv → Stats → THD × ReadOutcome × Stats
  | thd, [], st => (thd, .starved, st)
  | thd, it :: rest, st =>
    match lookupEntry thd.cache a with
    | none => (thd, .err .unknownTable [], st)
    | some e =>
      let step1 : THD × Stats × Bool :=
        match e.table with
        | some _ => (thd, st, false)
        | none =>
          let p := mysql_ha_open thd e true it.openEnv
          (p.1, { st with reopens := st.reopens + 1 }, p.2.isSome)
      let thd1 := step1.1
      let st1 := step1.2.1
      if step1.2.2 then (thd1, .err .reopenFail [], st1)
      else
        let st2 := { st1 with lockAttempts := st1.lockAttempts + 1 }
        if it.needReopen then
          match lookupEntry thd1.cache a with
          | none => (thd1, .err .unknownTable [], st2)
          | some e1 =>
            let q := mysql_ha_close_table thd1 e1
            let thd2 := { q.1 with cache := updateEntry q.1.cache a (fun _ => q.2) }
            readRetry a keyname cond sendOk limit offset env thd2 rest
              { st2 with closes := st2.closes + 1 }
        else if !it.lockOk then (thd1, .err .lockFail [], st2)
        else (thd1, readBodyOut keyname cond sendOk limit offset env, st2)

/-- mysql_ha_read: reject under locked_tables_mode before any lookup,
then enter the retry loop. -/
def mysql_ha_read (thd : THD) (a : String) (keyname : Bool)
    (cond : Option (Row → Bool)) (sendOk : Row → Bool)
    (limit offset : Nat) (env : ReadEnv) (iters : List ReadIterEnv) :
    THD × ReadOutcome × Stats :=
  if thd.lockedTablesMode then (thd, .err .lockedTables [], stats0)
  else readRetry a keyname cond sendOk limit offset env thd iters stats0

/-- C1: after the position-by-key call of a SeekKey read, the continuation
mode is determined solely by the comparator, following the fixed 8-entry
table Exact to RNEXT_SAME (SamePrefix), GreaterOrEqual to RNEXT (Forward),
LessOrEqual to RPREV (Backward), StrictlyGreater to RNEXT, StrictlyLess
to RPREV, PrefixFirst to RNEXT, PrefixLast to RPREV, PrefixLastOrLess to
RPREV; in particular a SamePrefix continuation after an Exact seek issues
only index_next_same (it never re-seeks), a Next continuation after a
GreaterOrEqual seek issues index_next (forward), and a Prev continuation
after a LessOrEqual seek issues index_prev (backward). -/
theorem c1_seek_continuation_table :
    (rkey_to_rnext .Exact = .RNEXT_SAME ∧
     rkey_to_rnext .GreaterOrEqual = .RNEXT ∧
     rkey_to_rnext .LessOrEqual = .RPREV ∧
     rkey_to_rnext .StrictlyGreater = .RNEXT ∧
     rkey_to_rnext .StrictlyLess = .RPREV ∧
     rkey_to_rnext .PrefixFirst = .RNEXT ∧
     rkey_to_rnext .PrefixLast = .RPREV ∧
     rkey_to_rnext .PrefixLastOrLess = .RPREV) ∧
    (∀ (c : RkeyFunction) (keyname inited : Bool),
      scanStep .RKEY c keyname inited = (.index_read_map c, rkey_to_rnext c)) ∧
    (∀ (c : RkeyFunction) (keyname inited : Bool),
      scanStep (rkey_to_rnext .Exact) c keyname inited =
        (.index_next_same, .RNEXT_SAME)) ∧
    (∀ (c : RkeyFunction),
      scanStep (rkey_to_rnext .GreaterOrEqual) c true true =
        (.index_next, .RNEXT)) ∧
    (∀ (c : RkeyFunction),
      scanStep (rkey_to_rnext .LessOrEqual) c true true =
        (.index_prev, .RPREV)) :=
  ⟨⟨rfl, rfl, rfl, rfl, rfl, rfl, rfl, rfl⟩,
   fun _ _ _ => rfl, fun _ _ _ => rfl, fun _ => rfl, fun _ => rfl⟩

/-- C2: a Next (resp. Prev) request with no scan active on the cursor
dispatches exactly as First (resp. Last) would: same primitive, with the
index or full scan initialised and positioned at the first (resp. last)
row, never an error; the continuation mode afterwards is RNEXT (Forward)
(resp. RPREV (Backward)), and this holds for both the index branch and
the full-table branch of Next. -/
theorem c2_next_uninitialized_falls_back_to_first :
    (∀ (c : RkeyFunction) (keyname : Bool),
      scanStep .RNEXT c keyname false = scanStep .RFIRST c keyname false) ∧
    (∀ (c : RkeyFunction) (keyname : Bool),
      (scanStep .RNEXT c keyname false).2 = .RNEXT) ∧
    (∀ (c : RkeyFunction), (scanStep .RNEXT c true false).1 = .index_first) ∧
    (∀ (c : RkeyFunction), (scanStep .RNEXT c false false).1 = .rnd_init_next) ∧
    (∀ (c : RkeyFunction),
      scanStep .RPREV c true false = scanStep .RLAST c true false) ∧
    (∀ (c : RkeyFunction), (scanStep .RPREV c true false).2 = .RPREV) ∧
    (∀ (c : RkeyFunction), (scanStep .RPREV c true false).1 = .index_last) :=
  ⟨fun _ _ => rfl,
   fun _ kn => by cases kn <;> rfl,
   fun _ => rfl, fun _ => rfl, fun _ => rfl, fun _ => rfl, fun _ => rfl⟩

/-- C5: a fetch that reports the record-was-concurrently-deleted
condition is retried without counting a row: for every predicate,
send behaviour, limit, offset, loop position and accumulator, the loop
over a stream containing a deleted-record fetch produces exactly the
result of the loop over the stream with that fetch removed; hence it
counts toward neither the limit nor the offset and the emitted row set
is the one that results if that fetch had been skipped. -/
theorem c5_record_deleted_retry (cond : Option (Row → Bool))
    (sendOk : Row → Bool) (limit offset : Nat)
    (pre post : List FetchRes) (n : Nat) (sent : List Row) :
    haReadRows cond sendOk limit offset (pre ++ .deleted :: post) n sent =
      haReadRows cond sendOk limit offset (pre ++ post) n sent := by
  induction pre generalizing n sent with
  | nil =>
    by_cases h : limit ≤ n
    · cases post <;> simp [haReadRows, h]
    · cases post <;> simp [haReadRows, h]
  | cons f rest ih =>
    by_cases h : limit ≤ n
    · simp [haReadRows, h]
    · cases f with
      | row r =>
        by_cases hc : condApp cond r
        · by_cases ho : offset ≤ n
          · by_cases hs : sendOk r
            · simp [haReadRows, h, hc, ho, hs, ih]
            · simp [haReadRows, h, hc, ho, hs]
          · simp [haReadRows, h, hc, ho, ih]
        · simp [haReadRows, h, hc, ih]
      | deleted => simp [haReadRows, h, ih]
      | keyNotFound => simp [haReadRows, h]
      | eof => simp [haReadRows, h]
      | engineErr c => simp [haReadRows, h]

/-- Core invariant of the row loop over a stream of plain row fetches
terminated by end-of-file: starting at match count n with accumulator
sent, the loop emits exactly the matching rows in the window from
offset to select_limit_cnt, shifted by the matches already counted. -/
lemma haReadRows_emit (cond : Option (Row → Bool)) (cnt off : Nat)
    (fetches : List FetchRes) (hrows : ∀ f ∈ fetches, isRowFetch f = true) :
    ∀ (n : Nat) (sent : List Row),
    haReadRows cond (fun _ => true) cnt off (fetches ++ [.eof]) n sent =
      .ok (sent.reverse ++
        (((matchRows cond fetches).take (cnt - n)).drop (off - n))) := by
  induction fetches with
  | nil =>
    intro n sent
    by_cases h : cnt ≤ n <;> simp [haReadRows, h, matchRows]
  | cons f rest ih =>
    intro n sent
    have hf : isRowFetch f = true := hrows f (by simp)
    have hrest : ∀ g ∈ rest, isRowFetch g = true :=
      fun g hg => hrows g (by simp [hg])
    cases f with
    | deleted => simp [isRowFetch] at hf
    | keyNotFound => simp [isRowFetch] at hf
    | eof => simp [isRowFetch] at hf
    | engineErr c => simp [isRowFetch] at hf
    | row r =>
      by_cases h : cnt ≤ n
      · have h0 : cnt - n = 0 := Nat.sub_eq_zero_of_le h
        simp [haReadRows, h, h0]
      · have hn1 : cnt - n = (cnt - (n + 1)) + 1 := by omega
        by_cases hc : condApp cond r
        · by_cases ho : off ≤ n
          · have ho0 : off - n = 0 := Nat.sub_eq_zero_of_le ho
            have ho1 : off - (n + 1) = 0 := by omega
            rw [List.cons_append]
            simp only [haReadRows, h, if_neg h, hc, if_pos, ho, ite_true]
            rw [ih hrest (n + 1) (r :: sent)]
            simp [matchRows, List.filterMap_cons, hc, hn1, ho0, ho1,
              List.take_succ_cons]
          · have ho1 : off - n = (off - (n + 1)) + 1 := by omega
            rw [List.cons_append]
            simp only [haReadRows, h, if_neg h, hc, ho, ite_true, ite_false]
            rw [ih hrest (n + 1) sent]
            simp [matchRows, List.filterMap_cons, hc, hn1, ho1,
              List.take_succ_cons, List.drop_succ_cons]
        · rw [List.cons_append]
          simp only [haReadRows, h, if_neg h, hc, ite_false]
          rw [ih hrest n sent]
          simp [matchRows, List.filterMap_cons, hc]

/-- C4: a read with row limit L and row offset O over a source producing
N predicate-matching rows, N > O, emits exactly the matching rows numbered
O to O + L - 1 — none of the first O matches, min L (N - O) rows in all —
and rows rejected by the predicate count toward neither the offset nor
the limit (they are absent from matchRows). -/
theorem c4_limit_offset (cond : Option (Row → Bool)) (L O : Nat)
    (fetches : List FetchRes)
    (hrows : ∀ f ∈ fetches, isRowFetch f = true)
    (hNO : O < (matchRows cond fetches).length) :
    ha_read_with_limit cond L O (fetches ++ [.eof]) =
      .ok (((matchRows cond fetches).drop O).take L) ∧
    (((matchRows cond fetches).drop O).take L).length =
      min L ((matchRows cond fetches).length - O) := by
  constructor
  · rw [ha_read_with_limit, haReadRows_emit cond (L + O) O fetches hrows 0 []]
    rw [Nat.sub_zero, Nat.sub_zero, Nat.add_comm L O, List.drop_take]
    simp
  · simp

/-- Witness for c4_limit_offset: predicate keeps even rows, source
[2, 3, 4, 6], so the matches are [2, 4, 6]; offset 1 and limit 1 emit
exactly [4]. -/
theorem c4_limit_offset_witness :
    ha_read_with_limit (some fun r => r % 2 == 0) 1 1
        ([.row 2, .row 3, .row 4, .row 6] ++ [.eof]) =
      .ok (((matchRows (some fun r => r % 2 == 0)
        [.row 2, .row 3, .row 4, .row 6]).drop 1).take 1) ∧
    (((matchRows (some fun r => r % 2 == 0)
        [.row 2, .row 3, .row 4, .row 6]).drop 1).take 1).length =
      min 1 ((matchRows (some fun r => r % 2 == 0)
        [.row 2, .row 3, .row 4, .row 6]).length - 1) :=
  c4_limit_offset (some fun r => r % 2 == 0) 1 1
    [.row 2, .row 3, .row 4, .row 6] (by decide) (by decide)

/-- mysql_ha_close_table always leaves the entry with a NULL table
pointer, whatever branch it takes. -/
lemma close_table_entry (thd : THD) (e : Entry) :
    (mysql_ha_close_table thd e).2 = { e with table := none } := by
  cases he : e.table with
  | none => simp only [mysql_ha_close_table, he]
  | some t =>
    simp only [mysql_ha_close_table, he]
    split <;> rfl

/-- mysql_ha_close_table never touches the hash, the ambient open-table
list, the ambient MDL context or the locked_tables_mode flag. -/
lemma close_table_frame (thd : THD) (e : Entry) :
    (mysql_ha_close_table thd e).1.cache = thd.cache ∧
    (mysql_ha_close_table thd e).1.openTables = thd.openTables ∧
    (mysql_ha_close_table thd e).1.mdlContext = thd.mdlContext ∧
    (mysql_ha_close_table thd e).1.lockedTablesMode = thd.lockedTablesMode := by
  cases he : e.table with
  | none => simp [mysql_ha_close_table, he]
  | some t =>
    simp only [mysql_ha_close_table, he]
    split <;> simp

/-- C6: mysql_ha_flush closes exactly the flagged entries — cursor
present and (has MDL ticket with pending conflicting lock, or marked
needing reopen) — leaving each of them in the cache with a NULL table
pointer, and leaves every other entry untouched, cursor, scan state and
all; the cache's alias sequence (hence its key set and size) is
identical before and after. -/
theorem c6_flush_closes_exactly_flagged (thd : THD) :
    (mysql_ha_flush thd).cache =
      thd.cache.map
        (fun e => if flushFlag e then { e with table := none } else e) ∧
    (mysql_ha_flush thd).cache.map (fun e => e.aliasName) =
      thd.cache.map (fun e => e.aliasName) ∧
    (mysql_ha_flush thd).cache.length = thd.cache.length := by
  have main :
      (mysql_ha_flush thd).cache =
        thd.cache.map
          (fun e => if flushFlag e then { e with table := none } else e) := by
    have fold :
        ∀ (l : List Entry) (p : THD × List Entry),
          (l.foldl
            (fun (acc : THD × List Entry) e =>
              if flushFlag e then
                let q := mysql_ha_close_table acc.1 e
                (q.1, q.2 :: acc.2)
              else (acc.1, e :: acc.2)) p).2
          = (l.map
              (fun e => if flushFlag e then { e with table := none } else e)).reverse
            ++ p.2 := by
      intro l
      induction l with
      | nil => intro p; simp
      | cons e rest ih =>
        intro p
        rw [List.foldl_cons, ih]
        by_cases hf : flushFlag e
        · simp [hf, close_table_entry]
        · simp [hf]
    unfold mysql_ha_flush
    simp [fold]
  refine ⟨main, ?_, ?_⟩
  · rw [main, List.map_map]
    refine List.map_congr_left ?_
    intro e _
    by_cases hf : flushFlag e <;> simp [hf]
  · rw [main, List.length_map]

/-- The err label of mysql_ha_open always reports the error it was
entered with. -/
lemma openErr_snd (thd : THD) (a : String) (reopen : Bool)
    (tag : OpenError) : (openErr thd a reopen tag).2 = some tag := rfl

/-- The err label of mysql_ha_open leaves the ambient open-table list
unchanged. -/
lemma openErr_openTables (thd : THD) (a : String) (reopen : Bool)
    (tag : OpenError) :
    (openErr thd a reopen tag).1.openTables = thd.openTables := by
  unfold openErr
  cases hl : lookupEntry thd.cache a with
  | none => cases reopen <;> simp [hl]
  | some e =>
    cases he : e.table with
    | none => cases reopen <;> simp [hl, he]
    | some t =>
      have hf := close_table_frame thd e
      cases reopen <;> simp [hl, he, hf.2.1]

/-- The err label of mysql_ha_open leaves the ambient MDL context
unchanged. -/
lemma openErr_mdlContext (thd : THD) (a : String) (reopen : Bool)
    (tag : OpenError) :
    (openErr thd a reopen tag).1.mdlContext = thd.mdlContext := by
  unfold openErr
  cases hl : lookupEntry thd.cache a with
  | none => cases reopen <;> simp [hl]
  | some e =>
    cases he : e.table with
    | none => cases reopen <;> simp [hl, he]
    | some t =>
      have hf := close_table_frame thd e
      cases reopen <;> simp [hl, he, hf.2.2.1]

/-- The context-swapped open body restores the ambient open-table list
on every exit path. -/
lemma openPhase2_openTables (t0 : THD) (a : String) (r : Bool)
    (env : OpenEnv) :
    (openPhase2 t0 a r env).1.openTables = t0.openTables := by
  unfold openPhase2
  cases henv : env.otTables with
  | nil =>
    simp only [henv]
    split
    · simp [openErr_openTables]
    · split
      · simp [openErr_openTables]
      · split <;> simp [openErr_openTables]
  | cons t ts =>
    cases ts with
    | nil =>
      simp only [henv]
      split
      · simp [openErr_openTables]
      · split
        · simp [openErr_openTables]
        · split <;> simp [openErr_openTables]
    | cons t2 ts2 =>
      simp only [henv]
      simp [openErr_openTables]

/-- The context-swapped open body restores the ambient MDL context on
every exit path. -/
lemma openPhase2_mdlContext (t0 : THD) (a : String) (r : Bool)
    (env : OpenEnv) :
    (openPhase2 t0 a r env).1.mdlContext = t0.mdlContext := by
  unfold openPhase2
  cases henv : env.otTables with
  | nil =>
    simp only [henv]
    split
    · simp [openErr_mdlContext]
    · split
      · simp [openErr_mdlContext]
      · split <;> simp [openErr_mdlContext]
  | cons t ts =>
    cases ts with
    | nil =>
      simp only [henv]
      split
      · simp [openErr_mdlContext]
      · split
        · simp [openErr_mdlContext]
        · split <;> simp [openErr_mdlContext]
    | cons t2 ts2 =>
      simp only [henv]
      simp [openErr_mdlContext]

/-- On success the context-swapped open body has merged exactly the
tickets acquired by open_tables into handler_mdl_context. -/
lemma openPhase2_success_handlerMdl (t0 : THD) (a : String) (r : Bool)
    (env : OpenEnv) :
    (openPhase2 t0 a r env).2 = none →
    (openPhase2 t0 a r env).1.handlerMdl = t0.handlerMdl ++ env.otTickets := by
  unfold openPhase2
  cases henv : env.otTables with
  | nil =>
    simp only [henv]
    split
    · intro h; rw [openErr_snd] at h; cases h
    · split
      · intro h; rw [openErr_snd] at h; cases h
      · split
        · intro _; simp
        · intro h; rw [openErr_snd] at h; cases h
  | cons t ts =>
    cases ts with
    | nil =>
      simp only [henv]
      split
      · intro h; rw [openErr_snd] at h; cases h
      · split
        · intro h; rw [openErr_snd] at h; cases h
        · split
          · intro _; simp
          · intro h; rw [openErr_snd] at h; cases h
    | cons t2 ts2 =>
      simp only [henv]
      intro h; simp [openErr_snd] at h

/-- C8: on every exit path of mysql_ha_open, error returns included, the
session's ambient open-table list and ambient MDL context equal their
values at entry (save ambient context, install an empty one, perform the
handle-scoped open and lock acquisition, restore), and on success the
tickets acquired during the open are merged into the handle-scoped
handler_mdl_context, never into the ambient context. -/
theorem c8_ambient_context_restored (thd : THD) (tables : Entry)
    (reopen : Bool) (env : OpenEnv) :
    (mysql_ha_open thd tables reopen env).1.openTables = thd.openTables ∧
    (mysql_ha_open thd tables reopen env).1.mdlContext = thd.mdlContext ∧
    ((mysql_ha_open thd tables reopen env).2 = none →
      (mysql_ha_open thd tables reopen env).1.handlerMdl =
        thd.handlerMdl ++ env.otTickets) := by
  unfold mysql_ha_open
  by_cases h1 : thd.lockedTablesMode
  · simp [h1]
  · by_cases h2 : tables.schemaTable
    · simp [h1, h2]
    · cases reopen with
      | true =>
        simp only [h1, h2, Bool.false_eq_true, if_false, if_true]
        exact ⟨openPhase2_openTables thd tables.aliasName true env,
               openPhase2_mdlContext thd tables.aliasName true env,
               openPhase2_success_handlerMdl thd tables.aliasName true env⟩
      | false =>
        by_cases h3 : (lookupEntry thd.cache tables.aliasName).isSome
        · simp [h1, h2, h3]
        · by_cases h4 : env.mallocOk
          · by_cases h5 : env.insertOk
            · simp only [h1, h2, h3, h4, h5, Bool.false_eq_true, if_false,
                Bool.not_true, Bool.not_false, if_true]
              exact ⟨openPhase2_openTables _ tables.aliasName false env,
                     openPhase2_mdlContext _ tables.aliasName false env,
                     openPhase2_success_handlerMdl _ tables.aliasName false env⟩
            · simp [h1, h2, h3, h4, h5]
          · simp [h1, h2, h3, h4]

/-- Witness for c8_ambient_context_restored at a concrete session and a
succeeding open that acquires one ticket, with the success implication
discharged. -/
theorem c8_ambient_context_restored_witness :
    (mysql_ha_open
        { cache := [], openTables := [⟨9, none, false, false, true, false, 0⟩],
          handlerTables := [], mdlContext := [7], handlerMdl := [],
          liveObjs := [9], lockedTablesMode := false }
        { db := "d", tableName := "t", aliasName := "h1",
          schemaTable := false, table := none }
        false
        { mallocOk := true, insertOk := true, otError := false,
          otTables := [⟨3, some 5, false, false, true, false, 0⟩],
          otTickets := [5] }).1.openTables =
      [⟨9, none, false, false, true, false, 0⟩] ∧
    (mysql_ha_open
        { cache := [], openTables := [⟨9, none, false, false, true, false, 0⟩],
          handlerTables := [], mdlContext := [7], handlerMdl := [],
          liveObjs := [9], lockedTablesMode := false }
        { db := "d", tableName := "t", aliasName := "h1",
          schemaTable := false, table := none }
        false
        { mallocOk := true, insertOk := true, otError := false,
          otTables := [⟨3, some 5, false, false, true, false, 0⟩],
          otTickets := [5] }).1.mdlContext = [7] ∧
    (mysql_ha_open
        { cache := [], openTables := [⟨9, none, false, false, true, false, 0⟩],
          handlerTables := [], mdlContext := [7], handlerMdl := [],
          liveObjs := [9], lockedTablesMode := false }
        { db := "d", tableName := "t", aliasName := "h1",
          schemaTable := false, table := none }
        false
        { mallocOk := true, insertOk := true, otError := false,
          otTables := [⟨3, some 5, false, false, true, false, 0⟩],
          otTickets := [5] }).1.handlerMdl = [] ++ [5] := by
  have h := c8_ambient_context_restored
    { cache := [], openTables := [⟨9, none, false, false, true, false, 0⟩],
      handlerTables := [], mdlContext := [7], handlerMdl := [],
      liveObjs := [9], lockedTablesMode := false }
    { db := "d", tableName := "t", aliasName := "h1",
      schemaTable := false, table := none }
    false
    { mallocOk := true, insertOk := true, otError := false,
      otTables := [⟨3, some 5, false, false, true, false, 0⟩],
      otTickets := [5] }
  exact ⟨h.1, h.2.1, h.2.2 (by decide)⟩

/-- C10: in locked-tables mode, open, read and close all fail
immediately with the lock-or-active-transaction error, before any alias
lookup, and leave the whole session state — the handle cache and every
entry in it included — unchanged. -/
theorem c10_locked_tables_mode_rejects_all (thd : THD)
    (hlock : thd.lockedTablesMode = true) (tables : Entry) (reopen : Bool)
    (env : OpenEnv) (a : String) (keyname : Bool)
    (cond : Option (Row → Bool)) (sendOk : Row → Bool)
    (limit offset : Nat) (renv : ReadEnv) (iters : List ReadIterEnv) :
    mysql_ha_open thd tables reopen env = (thd, some .lockedTables) ∧
    mysql_ha_read thd a keyname cond sendOk limit offset renv iters =
      (thd, .err .lockedTables [], stats0) ∧
    mysql_ha_close thd a = (thd, some .lockedTables) := by
  refine ⟨?_, ?_, ?_⟩ <;> simp [mysql_ha_open, mysql_ha_read, mysql_ha_close, hlock]

/-- Witness for c10_locked_tables_mode_rejects_all at a session holding
one open handler entry while in locked-tables mode. -/
theorem c10_locked_tables_mode_rejects_all_witness :
    mysql_ha_open
        { cache := [{ db := "d", tableName := "t", aliasName := "h1",
                      schemaTable := false,
                      table := some ⟨1, some 11, false, false, true, true, 2⟩ }],
          openTables := [], handlerTables := [⟨1, some 11, false, false, true, true, 2⟩],
          mdlContext := [], handlerMdl := [11], liveObjs := [1],
          lockedTablesMode := true }
        { db := "d", tableName := "u", aliasName := "h2",
          schemaTable := false, table := none }
        false
        { mallocOk := true, insertOk := true, otError := false,
          otTables := [], otTickets := [] } =
      ({ cache := [{ db := "d", tableName := "t", aliasName := "h1",
                     schemaTable := false,
                     table := some ⟨1, some 11, false, false, true, true, 2⟩ }],
         openTables := [], handlerTables := [⟨1, some 11, false, false, true, true, 2⟩],
         mdlContext := [], handlerMdl := [11], liveObjs := [1],
         lockedTablesMode := true }, some .lockedTables) ∧
    mysql_ha_read
        { cache := [{ db := "d", tableName := "t", aliasName := "h1",
                      schemaTable := false,
                      table := some ⟨1, some 11, false, false, true, true, 2⟩ }],
          openTables := [], handlerTables := [⟨1, some 11, false, false, true, true, 2⟩],
          mdlContext := [], handlerMdl := [11], liveObjs := [1],
          lockedTablesMode := true }
        "h1" false none (fun _ => true) 1 0
        { condFixOk := true, keynoOk := true, insertFieldsOk := true,
          fetches := [] } [] =
      ({ cache := [{ db := "d", tableName := "t", aliasName := "h1",
                     schemaTable := false,
                     table := some ⟨1, some 11, false, false, true, true, 2⟩ }],
         openTables := [], handlerTables := [⟨1, some 11, false, false, true, true, 2⟩],
         mdlContext := [], handlerMdl := [11], liveObjs := [1],
         lockedTablesMode := true }, .err .lockedTables [], stats0) ∧
    mysql_ha_close
        { cache := [{ db := "d", tableName := "t", aliasName := "h1",
                      schemaTable := false,
                      table := some ⟨1, some 11, false, false, true, true, 2⟩ }],
          openTables := [], handlerTables := [⟨1, some 11, false, false, true, true, 2⟩],
          mdlContext := [], handlerMdl := [11], liveObjs := [1],
          lockedTablesMode := true }
        "h1" =
      ({ cache := [{ db := "d", tableName := "t", aliasName := "h1",
                     schemaTable := false,
                     table := some ⟨1, some 11, false, false, true, true, 2⟩ }],
         openTables := [], handlerTables := [⟨1, some 11, false, false, true, true, 2⟩],
         mdlContext := [], handlerMdl := [11], liveObjs := [1],
         lockedTablesMode := true }, some .lockedTables) :=
  c10_locked_tables_mode_rejects_all _ rfl _ false _ "h1" false none
    (fun _ => true) 1 0 _ []

/-- Updating an alias that no element of a list carries is the identity
on that list. -/
lemma map_no_match (l : List Entry) (a : String) (f : Entry → Entry)
    (h : ∀ x ∈ l, ¬(x.aliasName == a) = true) :
    l.map (fun e => if e.aliasName == a then f e else e) = l := by
  induction l with
  | nil => rfl
  | cons x xs ih =>
    simp only [List.map_cons, if_neg (h x (by simp))]
    rw [ih (fun y hy => h y (by simp [hy]))]

/-- updateEntry on a cache ending in the only entry with the target
alias rewrites exactly that entry. -/
lemma updateEntry_append_self (l : List Entry) (e : Entry) (f : Entry → Entry)
    (h : ∀ x ∈ l, ¬(x.aliasName == e.aliasName) = true) :
    updateEntry (l ++ [e]) e.aliasName f = l ++ [f e] := by
  unfold updateEntry
  rw [List.map_append, map_no_match l e.aliasName f h]
  simp

/-- my_hash_search finds the unique entry with the target alias when it
sits at the end of the cache. -/
lemma lookup_append_self (l : List Entry) (e : Entry)
    (h : ∀ x ∈ l, ¬(x.aliasName == e.aliasName) = true) :
    lookupEntry (l ++ [e]) e.aliasName = some e := by
  unfold lookupEntry
  induction l with
  | nil => simp
  | cons x xs ih =>
    have hx : (x.aliasName == e.aliasName) = false := by
      simpa using h x (by simp)
    rw [List.cons_append]
    simp only [List.find?_cons, hx]
    exact ih (fun y hy => h y (by simp [hy]))

/-- my_hash_delete of the unique entry with the target alias at the end
of the cache restores the original cache. -/
lemma removeAlias_append_self (l : List Entry) (e : Entry)
    (h : ∀ x ∈ l, ¬(x.aliasName == e.aliasName) = true) :
    removeAlias (l ++ [e]) e.aliasName = l := by
  unfold removeAlias
  induction l with
  | nil => simp [List.eraseP_cons]
  | cons x xs ih =>
    rw [List.cons_append, List.eraseP_cons]
    have hx := h x (by simp)
    simp only [Bool.not_eq_true] at hx
    rw [hx]
    simp only [cond_false]
    rw [ih (fun y hy => h y (by simp [hy]))]

/-- Erasing a freshly appended element restores the original list. -/
lemma erase_append_self (l : List Nat) (x : Nat) (h : x ∉ l) :
    (l ++ [x]).erase x = l := by
  rw [List.erase_append_right _ h]
  simp

/-- removeIds of freshly appended ids restores the original list. -/
lemma removeIds_restore (l ids : List Nat) (h : ∀ i ∈ ids, i ∉ l) :
    removeIds (l ++ ids) ids = l := by
  unfold removeIds
  rw [List.filter_append]
  have h1 : l.filter (fun x => !(ids.contains x)) = l := by
    rw [List.filter_eq_self]
    intro x hx
    have : x ∉ ids := fun hmem => h x hmem hx
    simp [this]
  have h2 : ids.filter (fun x => !(ids.contains x)) = [] := by
    rw [List.filter_eq_nil_iff]
    intro x hx
    simp [hx]
  rw [h1, h2, List.append_nil]

/-- Looking up an alias after an alias-preserving update yields the
updated image of the original entry. -/
lemma lookup_updateEntry (c : List Entry) (a : String) (f : Entry → Entry)
    (hf : ∀ e, (f e).aliasName = e.aliasName) :
    lookupEntry (updateEntry c a f) a = (lookupEntry c a).map f := by
  induction c with
  | nil => rfl
  | cons x xs ih =>
    by_cases hx : x.aliasName = a
    · have hfx : (f x).aliasName = a := by rw [hf x, hx]
      simp [updateEntry, lookupEntry, List.find?_cons, hx, hfx]
    · simp only [updateEntry, List.map_cons, lookupEntry, List.find?_cons,
        beq_eq_false_iff_ne.mpr hx, Bool.false_eq_true, if_false]
      simpa only [lookupEntry, updateEntry] using ih

/-- updateEntry with an alias-preserving function leaves the cache's
alias sequence unchanged. -/
lemma updateEntry_aliases (c : List Entry) (a : String) (f : Entry → Entry)
    (hp : ∀ e, (e.aliasName == a) = true → (f e).aliasName = e.aliasName) :
    (updateEntry c a f).map (fun x => x.aliasName) =
      c.map (fun x => x.aliasName) := by
  induction c with
  | nil => rfl
  | cons x xs ih =>
    by_cases hx : (x.aliasName == a) = true
    · simp only [updateEntry, List.map_cons, if_pos hx, hp x hx] at *
      rw [ih]
    · simp only [updateEntry, List.map_cons, if_neg hx] at *
      rw [ih]

/-- The err label after a fresh (non-reopen) open that never set the
entry's table pointer: the inserted entry is deleted again and nothing
else changes. -/
lemma openErr_fresh_none (s : THD) (l : List Entry) (e : Entry)
    (tag : OpenError)
    (hcache : s.cache = l ++ [e])
    (hfresh : ∀ x ∈ l, ¬(x.aliasName == e.aliasName) = true)
    (ht : e.table = none) :
    (openErr s e.aliasName false tag).1.cache = l ∧
    (openErr s e.aliasName false tag).1.liveObjs = s.liveObjs ∧
    (openErr s e.aliasName false tag).1.handlerTables = s.handlerTables := by
  unfold openErr
  simp only [hcache, lookup_append_self l e hfresh, ht, Option.isSome_none,
    Bool.false_eq_true, if_false, removeAlias_append_self l e hfresh]
  simp

/-- The err label after a fresh (non-reopen) open that did set the
entry's table pointer: the table is closed via mysql_ha_close_table and
the inserted entry is deleted again. -/
lemma openErr_fresh_some (s : THD) (l : List Entry) (e : Entry) (t : Table)
    (tag : OpenError)
    (hcache : s.cache = l ++ [e])
    (hfresh : ∀ x ∈ l, ¬(x.aliasName == e.aliasName) = true)
    (ht : e.table = some t) :
    (openErr s e.aliasName false tag).1.cache = l ∧
    (openErr s e.aliasName false tag).1.liveObjs =
      (mysql_ha_close_table s e).1.liveObjs ∧
    (openErr s e.aliasName false tag).1.handlerTables =
      (mysql_ha_close_table s e).1.handlerTables := by
  unfold openErr
  simp only [hcache, lookup_append_self l e hfresh, ht, Option.isSome_some,
    if_true]
  rw [(close_table_frame s e).1, hcache, close_table_entry s e,
    updateEntry_append_self l e _ hfresh,
    removeAlias_append_self l { e with table := none } hfresh]
  simp

/-- Rollback of the context-swapped open body for a fresh (non-reopen)
open: whenever it fails — open_tables error, multi-table open, missing
HA_CAN_SQL_HANDLER — the freshly inserted entry is gone again, every
physical object opened is closed, and thd->handler_tables is as before.
The freshness hypotheses say the objects open_tables materialises are
new objects, as they are in the source (where identity is pointer
identity). -/
lemma openPhase2_err_rollback (t0 : THD) (newE : Entry) (env : OpenEnv)
    (hfresh : ∀ x ∈ t0.cache, ¬(x.aliasName == newE.aliasName) = true)
    (htbl : newE.table = none)
    (hids : ∀ t ∈ env.otTables, t.id ∉ t0.liveObjs)
    (hidsH : ∀ t ∈ env.otTables, ∀ h ∈ t0.handlerTables, h.id ≠ t.id) :
    (openPhase2 { t0 with cache := t0.cache ++ [newE] }
        newE.aliasName false env).2 ≠ none →
    (openPhase2 { t0 with cache := t0.cache ++ [newE] }
        newE.aliasName false env).1.cache = t0.cache ∧
    (openPhase2 { t0 with cache := t0.cache ++ [newE] }
        newE.aliasName false env).1.liveObjs = t0.liveObjs ∧
    (openPhase2 { t0 with cache := t0.cache ++ [newE] }
        newE.aliasName false env).1.handlerTables = t0.handlerTables := by
  have hself : ({ newE with table := (none : Option Table) } : Entry) = newE := by
    cases newE
    simp only at htbl
    simp [htbl]
  cases henv : env.otTables with
  | nil =>
    have hupd : updateEntry (t0.cache ++ [newE]) newE.aliasName
        (fun e => { e with table := (none : Option Table) }) =
        t0.cache ++ [newE] := by
      rw [updateEntry_append_self _ _ _ hfresh, hself]
    intro _
    simp only [openPhase2, henv, List.map_nil, List.append_nil,
      List.head?_nil, hupd, lookup_append_self t0.cache newE hfresh,
      Option.some_bind, htbl]
    by_cases he : env.otError
    · simp only [he, if_true]
      refine openErr_fresh_none _ t0.cache newE _ ?_ hfresh htbl
      rfl
    · simp only [he, Bool.false_eq_true, if_false]
      refine openErr_fresh_none _ t0.cache newE _ ?_ hfresh htbl
      rfl
  | cons t ts =>
    cases ts with
    | nil =>
      have hupd : updateEntry (t0.cache ++ [newE]) newE.aliasName
          (fun e => { e with table := some t }) =
          t0.cache ++ [{ newE with table := some t }] :=
        updateEntry_append_self _ _ _ hfresh
      have hmem : t ∈ env.otTables := by rw [henv]; simp
      have hany : ((t :: t0.handlerTables).any (fun h => h.id == t.id)) = true := by
        simp
      have hclose :
          (mysql_ha_close_table
            { t0 with cache := t0.cache ++ [{ newE with table := some t }],
                      handlerTables := t :: t0.handlerTables,
                      liveObjs := t0.liveObjs ++ [t.id],
                      handlerMdl := t0.handlerMdl ++ env.otTickets }
            { newE with table := some t }).1.liveObjs = t0.liveObjs ∧
          (mysql_ha_close_table
            { t0 with cache := t0.cache ++ [{ newE with table := some t }],
                      handlerTables := t :: t0.handlerTables,
                      liveObjs := t0.liveObjs ++ [t.id],
                      handlerMdl := t0.handlerMdl ++ env.otTickets }
            { newE with table := some t }).1.handlerTables = t0.handlerTables := by
        simp only [mysql_ha_close_table, hany, if_true, List.eraseP_cons,
          beq_self_eq_true, cond_true]
        refine ⟨erase_append_self _ _ (hids t hmem), ?_⟩
        trivial
      intro hne
      simp only [openPhase2, henv, List.map_cons, List.map_nil,
        List.head?_cons, hupd, List.append_nil,
        lookup_append_self t0.cache { newE with table := some t } hfresh,
        Option.some_bind] at hne ⊢
      by_cases he : env.otError
      · simp only [he, if_true] at hne ⊢
        refine ⟨?_, ?_, ?_⟩
        · refine (openErr_fresh_some _ t0.cache { newE with table := some t } t
            _ ?_ hfresh rfl).1
          rfl
        · refine ((openErr_fresh_some _ t0.cache { newE with table := some t } t
            _ ?_ hfresh rfl).2.1).trans hclose.1
          rfl
        · refine ((openErr_fresh_some _ t0.cache { newE with table := some t } t
            _ ?_ hfresh rfl).2.2).trans hclose.2
          rfl
      · simp only [he, Bool.false_eq_true, if_false] at hne ⊢
        by_cases hcs : t.canSqlHandler
        · simp only [hcs, if_true] at hne
          exact absurd rfl hne
        · simp only [hcs, Bool.false_eq_true, if_false] at hne ⊢
          refine ⟨?_, ?_, ?_⟩
          · refine (openErr_fresh_some _ t0.cache { newE with table := some t } t
              _ ?_ hfresh rfl).1
            rfl
          · refine ((openErr_fresh_some _ t0.cache { newE with table := some t } t
              _ ?_ hfresh rfl).2.1).trans hclose.1
            rfl
          · refine ((openErr_fresh_some _ t0.cache { newE with table := some t } t
              _ ?_ hfresh rfl).2.2).trans hclose.2
            rfl
    | cons t2 ts2 =>
      have hupd : updateEntry (t0.cache ++ [newE]) newE.aliasName
          (fun e => { e with table := some t }) =
          t0.cache ++ [{ newE with table := some t }] :=
        updateEntry_append_self _ _ _ hfresh
      have hrem : removeIds
          (t0.liveObjs ++ (t.id :: t2.id :: ts2.map (fun x => x.id)))
          (t.id :: t2.id :: ts2.map (fun x => x.id)) = t0.liveObjs := by
        refine removeIds_restore _ _ ?_
        intro i hi
        have : ∃ x ∈ env.otTables, x.id = i := by
          rw [henv]
          simp only [List.mem_cons, List.mem_map] at hi ⊢
          rcases hi with h1 | h1 | ⟨x, hx, rfl⟩
          · exact ⟨t, Or.inl rfl, h1.symm⟩
          · exact ⟨t2, Or.inr (Or.inl rfl), h1.symm⟩
          · exact ⟨x, Or.inr (Or.inr hx), rfl⟩
        rcases this with ⟨x, hx, rfl⟩
        exact hids x hx
      have hanyF : (t0.handlerTables.any (fun h => h.id == t.id)) = false := by
        rw [List.any_eq_false]
        intro h hh
        simp only [Bool.not_eq_true, beq_eq_false_iff_ne, ne_eq]
        exact hidsH t (by rw [henv]; simp) h hh
      have hclose :
          ∀ (s : THD), s.handlerTables = t0.handlerTables →
          s.liveObjs = t0.liveObjs →
          (mysql_ha_close_table s { newE with table := some t }).1.liveObjs
            = t0.liveObjs ∧
          (mysql_ha_close_table s { newE with table := some t }).1.handlerTables
            = t0.handlerTables := by
        intro s hs hl
        simp only [mysql_ha_close_table]
        rw [hs, hanyF]
        exact ⟨hl, hs⟩
      intro hne
      simp only [openPhase2, henv, List.map_cons, List.head?_cons, hupd,
        hrem] at hne ⊢
      refine ⟨?_, ?_, ?_⟩
      · refine (openErr_fresh_some _ t0.cache { newE with table := some t } t
          OpenError.illegalHA ?_ hfresh rfl).1
        rfl
      · refine ((openErr_fresh_some _ t0.cache { newE with table := some t } t
          OpenError.illegalHA ?_ hfresh rfl).2.1).trans ?_
        · rfl
        · exact (hclose
            { t0 with cache := t0.cache ++ [{ newE with table := some t }],
                      handlerMdl := t0.handlerMdl ++ [] } rfl rfl).1
      · refine ((openErr_fresh_some _ t0.cache { newE with table := some t } t
          OpenError.illegalHA ?_ hfresh rfl).2.2).trans ?_
        · rfl
        · exact (hclose
            { t0 with cache := t0.cache ++ [{ newE with table := some t }],
                      handlerMdl := t0.handlerMdl ++ [] } rfl rfl).2

/-- The entry my_hash_search returns carries the alias it was searched
under. -/
lemma lookupEntry_beq (c : List Entry) (a : String) (e : Entry)
    (h : lookupEntry c a = some e) : (e.aliasName == a) = true := by
  unfold lookupEntry at h
  induction c with
  | nil => cases h
  | cons x xs ih =>
    rw [List.find?_cons] at h
    by_cases hx : (x.aliasName == a) = true
    · rw [hx] at h
      cases h
      exact hx
    · rw [show (x.aliasName == a) = false from by simpa using hx] at h
      exact ih h

/-- Looking up an alias after overwriting it with a fixed entry carrying
that alias yields that entry whenever the alias was present. -/
lemma lookup_updateEntry_const (c : List Entry) (a : String) (r : Entry)
    (hr : (r.aliasName == a) = true) :
    lookupEntry (updateEntry c a (fun _ => r)) a =
      (lookupEntry c a).map (fun _ => r) := by
  induction c with
  | nil => rfl
  | cons x xs ih =>
    by_cases hx : x.aliasName = a
    · simp [updateEntry, lookupEntry, List.find?_cons, hx, hr]
    · simp only [updateEntry, List.map_cons, lookupEntry, List.find?_cons,
        beq_eq_false_iff_ne.mpr hx, Bool.false_eq_true, if_false]
      simpa only [lookupEntry, updateEntry] using ih

/-- The context-swapped open body on the reopen path: on every failing
exit the hashed entry is still present under its alias, its table
pointer is NULL, and the cache's alias sequence is unchanged. -/
lemma openPhase2_reopen_err (t0 : THD) (a : String) (env : OpenEnv)
    (e : Entry) (hl : lookupEntry t0.cache a = some e) :
    (openPhase2 t0 a true env).2 ≠ none →
    ∃ e', lookupEntry (openPhase2 t0 a true env).1.cache a = some e' ∧
      e'.table = none ∧
      (openPhase2 t0 a true env).1.cache.map (fun x => x.aliasName) =
        t0.cache.map (fun x => x.aliasName) := by
  have he : (e.aliasName == a) = true := lookupEntry_beq t0.cache a e hl
  have hpres : ∀ (tb : Option Table),
      ∀ x : Entry, ({ x with table := tb } : Entry).aliasName = x.aliasName :=
    fun _ _ => rfl
  have hupdal : ∀ (tb : Option Table) (c : List Entry),
      (updateEntry c a (fun x => { x with table := tb })).map
        (fun x => x.aliasName) = c.map (fun x => x.aliasName) :=
    fun tb c => updateEntry_aliases c a _ (fun x _ => rfl)
  have hlookup1 : ∀ (tb : Option Table),
      lookupEntry (updateEntry t0.cache a (fun x => { x with table := tb })) a
        = some { e with table := tb } := by
    intro tb
    rw [lookup_updateEntry t0.cache a (fun x => { x with table := tb })
      (fun _ => rfl), hl]
    rfl
  -- the err label with reopen = true, entered with the entry's table set
  have herr : ∀ (s : THD) (e1 : Entry) (t : Table) (tag : OpenError),
      lookupEntry s.cache a = some e1 → e1.table = some t →
      (e1.aliasName == a) = true →
      ∃ e', lookupEntry (openErr s a true tag).1.cache a = some e' ∧
        e'.table = none ∧
        (openErr s a true tag).1.cache.map (fun x => x.aliasName) =
          s.cache.map (fun x => x.aliasName) := by
    intro s e1 t tag hs ht he1
    refine ⟨{ e1 with table := none }, ?_, rfl, ?_⟩
    · simp only [openErr, hs, ht, Option.isSome_some, if_true,
        close_table_entry]
      rw [(close_table_frame s e1).1]
      exact lookup_updateEntry_const s.cache a { e1 with table := none } he1
        |>.trans (by rw [hs]; rfl)
    · simp only [openErr, hs, ht, Option.isSome_some, if_true,
        close_table_entry]
      rw [(close_table_frame s e1).1]
      exact updateEntry_aliases s.cache a _
        (fun x hx => by
          have hxa : x.aliasName = a := by simpa using hx
          have hea : e1.aliasName = a := by simpa using he1
          simp [hxa, hea])
  intro hne
  cases henv : env.otTables with
  | nil =>
    simp only [openPhase2, henv, List.map_nil, List.append_nil,
      List.head?_nil, hlookup1, Option.some_bind] at hne ⊢
    by_cases herr0 : env.otError
    · simp only [herr0, if_true] at hne ⊢
      refine ⟨{ e with table := none }, ?_, rfl, ?_⟩
      · simp only [openErr, hlookup1, Option.isSome_none, Bool.false_eq_true,
          if_false]
        exact hlookup1 none
      · simp only [openErr, hlookup1, Option.isSome_none, Bool.false_eq_true,
          if_false]
        exact hupdal none t0.cache
    · simp only [herr0, Bool.false_eq_true, if_false] at hne ⊢
      refine ⟨{ e with table := none }, ?_, rfl, ?_⟩
      · simp only [openErr, hlookup1, Option.isSome_none, Bool.false_eq_true,
          if_false]
        exact hlookup1 none
      · simp only [openErr, hlookup1, Option.isSome_none, Bool.false_eq_true,
          if_false]
        exact hupdal none t0.cache
  | cons t ts =>
    cases ts with
    | nil =>
      simp only [openPhase2, henv, List.map_cons, List.map_nil,
        List.head?_cons, List.append_nil, hlookup1, Option.some_bind] at hne ⊢
      by_cases herr0 : env.otError
      · simp only [herr0, if_true] at hne ⊢
        exact herr _ { e with table := some t } t _ (hlookup1 (some t)) rfl he
          |>.imp (fun e' h => ⟨h.1, h.2.1, h.2.2.trans (hupdal (some t) t0.cache)⟩)
      · simp only [herr0, Bool.false_eq_true, if_false] at hne ⊢
        by_cases hcs : t.canSqlHandler
        · simp only [hcs, if_true] at hne
          exact absurd rfl hne
        · simp only [hcs, Bool.false_eq_true, if_false] at hne ⊢
          exact herr _ { e with table := some t } t _ (hlookup1 (some t)) rfl he
            |>.imp (fun e' h => ⟨h.1, h.2.1, h.2.2.trans (hupdal (some t) t0.cache)⟩)
    | cons t2 ts2 =>
      simp only [openPhase2, henv, List.map_cons, List.head?_cons] at hne ⊢
      exact herr _ { e with table := some t } t _ (hlookup1 (some t)) rfl he
        |>.imp (fun e' h => ⟨h.1, h.2.1, h.2.2.trans (hupdal (some t) t0.cache)⟩)

/-- C7: a failing open is all-or-nothing. For reopen = false, whatever
the failure — duplicate alias, allocation or insert failure, open_tables
error, multi-table open (MERGE), engine without HA_CAN_SQL_HANDLER — the
cache, the set of open physical objects and thd->handler_tables are
exactly as before the call, so no cache entry created by this open
remains (in particular a fresh alias is still absent afterwards); for
reopen = true a failed open leaves the entry present in the cache under
its alias with its cursor closed, and the cache's alias sequence
unchanged. The freshness hypotheses state that open_tables materialises
new objects, as pointer identity guarantees in the source. -/
theorem c7_failed_open_all_or_nothing :
    (∀ (thd : THD) (tables : Entry) (env : OpenEnv) (err : OpenError),
      (∀ t ∈ env.otTables, t.id ∉ thd.liveObjs) →
      (∀ t ∈ env.otTables, ∀ h ∈ thd.handlerTables, h.id ≠ t.id) →
      (mysql_ha_open thd tables false env).2 = some err →
      (mysql_ha_open thd tables false env).1.cache = thd.cache ∧
      (mysql_ha_open thd tables false env).1.liveObjs = thd.liveObjs ∧
      (mysql_ha_open thd tables false env).1.handlerTables =
        thd.handlerTables ∧
      (lookupEntry thd.cache tables.aliasName = none →
        lookupEntry (mysql_ha_open thd tables false env).1.cache
          tables.aliasName = none)) ∧
    (∀ (thd : THD) (e : Entry) (env : OpenEnv) (err : OpenError),
      lookupEntry thd.cache e.aliasName = some e →
      e.table = none →
      (mysql_ha_open thd e true env).2 = some err →
      ∃ e', lookupEntry (mysql_ha_open thd e true env).1.cache e.aliasName
          = some e' ∧ e'.table = none ∧
        (mysql_ha_open thd e true env).1.cache.map (fun x => x.aliasName) =
          thd.cache.map (fun x => x.aliasName)) := by
  constructor
  · intro thd tables env err hids hidsH herr
    by_cases h1 : thd.lockedTablesMode = true
    · simp only [mysql_ha_open, if_pos h1] at herr ⊢
      refine ⟨?_, ?_, ?_, ?_⟩ <;> first | rfl | trivial | exact fun h => h
    · by_cases h2 : tables.schemaTable = true
      · simp only [mysql_ha_open, if_neg h1, if_pos h2] at herr ⊢
        refine ⟨?_, ?_, ?_, ?_⟩ <;> first | rfl | trivial | exact fun h => h
      · by_cases h3 : (lookupEntry thd.cache tables.aliasName).isSome = true
        · simp only [mysql_ha_open, if_neg h1, if_neg h2, if_pos h3] at herr ⊢
          refine ⟨?_, ?_, ?_, ?_⟩ <;> first | rfl | trivial | exact fun h => h
        · by_cases h4 : env.mallocOk = true
          · by_cases h5 : env.insertOk = true
            · have hlnone :
                  lookupEntry thd.cache tables.aliasName = none := by
                rcases hopt : lookupEntry thd.cache tables.aliasName with _ | v
                · rfl
                · rw [hopt] at h3
                  simp at h3
              have hfresh : ∀ x ∈ thd.cache,
                  ¬(x.aliasName == tables.aliasName) = true := by
                have h0 : List.find?
                    (fun x => x.aliasName == tables.aliasName) thd.cache
                    = none := hlnone
                intro x hx
                simpa using List.find?_eq_none.mp h0 x hx
              simp only [mysql_ha_open, if_neg h1, if_neg h2, if_neg h3,
                if_neg (show ¬(!env.mallocOk) = true by simp [h4]),
                if_neg (show ¬(!env.insertOk) = true by simp [h5]),
                Bool.false_eq_true, if_false] at herr ⊢
              have hne : (openPhase2
                  { thd with cache :=
                      thd.cache ++ [{ tables with table := none }] }
                  tables.aliasName false env).2 ≠ none := by
                rw [herr]
                simp
              have key := openPhase2_err_rollback thd
                  { tables with table := none } env hfresh rfl hids hidsH hne
              have hc : (openPhase2
                  { thd with cache :=
                      thd.cache ++ [{ tables with table := none }] }
                  tables.aliasName false env).1.cache = thd.cache := key.1
              refine ⟨key.1, key.2.1, key.2.2, fun _ => ?_⟩
              rw [hc]
              exact hlnone
            · simp only [mysql_ha_open, if_neg h1, if_neg h2, if_neg h3,
                if_neg (show ¬(!env.mallocOk) = true by simp [h4]),
                if_pos (show (!env.insertOk) = true by simp [h5])] at herr ⊢
              refine ⟨?_, ?_, ?_, ?_⟩ <;>
                first | rfl | trivial | exact fun h => h
          · simp only [mysql_ha_open, if_neg h1, if_neg h2, if_neg h3,
              if_pos (show (!env.mallocOk) = true by simp [h4])] at herr ⊢
            refine ⟨?_, ?_, ?_, ?_⟩ <;>
              first | rfl | trivial | exact fun h => h
  · intro thd e env err hl htbl herr
    by_cases h1 : thd.lockedTablesMode = true
    · simp only [mysql_ha_open, if_pos h1] at herr ⊢
      exact ⟨e, hl, htbl, by trivial⟩
    · by_cases h2 : e.schemaTable = true
      · simp only [mysql_ha_open, if_neg h1, if_pos h2] at herr ⊢
        exact ⟨e, hl, htbl, by trivial⟩
      · simp only [mysql_ha_open, if_neg h1, if_neg h2, eq_self_iff_true,
          if_true] at herr ⊢
        have hne : (openPhase2 thd e.aliasName true env).2 ≠ none := by
          rw [herr]
          simp
        exact openPhase2_reopen_err thd e.aliasName env e hl hne

/-- Witness for c7_failed_open_all_or_nothing: a multi-table (MERGE-like)
open of two physical objects fails and leaves no entry and no open
object behind, and a failing re-open (open_tables error) leaves the
entry cached with its cursor closed. -/
theorem c7_failed_open_all_or_nothing_witness :
    ((mysql_ha_open
        { cache := [], openTables := [], handlerTables := [],
          mdlContext := [], handlerMdl := [], liveObjs := [],
          lockedTablesMode := false }
        { db := "d", tableName := "t", aliasName := "h1",
          schemaTable := false, table := none }
        false
        { mallocOk := true, insertOk := true, otError := false,
          otTables := [⟨1, some 4, false, false, true, false, 0⟩,
                       ⟨2, some 5, false, false, true, false, 0⟩],
          otTickets := [4, 5] }).1.cache = [] ∧
     (mysql_ha_open
        { cache := [], openTables := [], handlerTables := [],
          mdlContext := [], handlerMdl := [], liveObjs := [],
          lockedTablesMode := false }
        { db := "d", tableName := "t", aliasName := "h1",
          schemaTable := false, table := none }
        false
        { mallocOk := true, insertOk := true, otError := false,
          otTables := [⟨1, some 4, false, false, true, false, 0⟩,
                       ⟨2, some 5, false, false, true, false, 0⟩],
          otTickets := [4, 5] }).1.liveObjs = []) ∧
    (∃ e', lookupEntry
        (mysql_ha_open
          { cache := [{ db := "d", tableName := "t", aliasName := "h2",
                        schemaTable := false, table := none }],
            openTables := [], handlerTables := [], mdlContext := [],
            handlerMdl := [], liveObjs := [], lockedTablesMode := false }
          { db := "d", tableName := "t", aliasName := "h2",
            schemaTable := false, table := none }
          true
          { mallocOk := true, insertOk := true, otError := true,
            otTables := [], otTickets := [] }).1.cache "h2" = some e' ∧
      e'.table = none) := by
  constructor
  · have h := c7_failed_open_all_or_nothing.1
      { cache := [], openTables := [], handlerTables := [],
        mdlContext := [], handlerMdl := [], liveObjs := [],
        lockedTablesMode := false }
      { db := "d", tableName := "t", aliasName := "h1",
        schemaTable := false, table := none }
      { mallocOk := true, insertOk := true, otError := false,
        otTables := [⟨1, some 4, false, false, true, false, 0⟩,
                     ⟨2, some 5, false, false, true, false, 0⟩],
        otTickets := [4, 5] }
      .illegalHA (by decide) (by decide) (by decide)
    exact ⟨h.1, h.2.1⟩
  · have h := c7_failed_open_all_or_nothing.2
      { cache := [{ db := "d", tableName := "t", aliasName := "h2",
                    schemaTable := false, table := none }],
        openTables := [], handlerTables := [], mdlContext := [],
        handlerMdl := [], liveObjs := [], lockedTablesMode := false }
      { db := "d", tableName := "t", aliasName := "h2",
        schemaTable := false, table := none }
      { mallocOk := true, insertOk := true, otError := true,
        otTables := [], otTickets := [] }
      .openTablesFail (by decide) rfl (by decide)
    exact h.imp (fun e' he' => ⟨he'.1, he'.2.1⟩)

/-- Two successive updates of the same alias collapse into one when the
first preserves aliases. -/
lemma updateEntry_comp (c : List Entry) (a : String) (f g : Entry → Entry)
    (hf : ∀ x, (f x).aliasName = x.aliasName) :
    updateEntry (updateEntry c a f) a g = updateEntry c a (fun x => g (f x)) := by
  induction c with
  | nil => rfl
  | cons x xs ih =>
    by_cases hx : (x.aliasName == a) = true
    · have hfx : ((f x).aliasName == a) = true := by rw [hf x]; exact hx
      simp only [updateEntry, List.map_cons, if_pos hx, if_pos hfx] at *
      rw [ih]
    · have hfx : ((f x).aliasName == a) = false := by
        rw [hf x]
        simpa using hx
      simp only [updateEntry, List.map_cons, if_neg hx] at *
      rw [ih]

/-- Overwriting the alias slot with the entry it already holds is a
no-op when aliases are unique (the hash invariant). -/
lemma updateEntry_const_self (c : List Entry) (a : String) (e : Entry)
    (hl : lookupEntry c a = some e)
    (hnd : (c.map (fun x => x.aliasName)).Nodup) :
    updateEntry c a (fun _ => e) = c := by
  induction c with
  | nil => rfl
  | cons x xs ih =>
    by_cases hx : (x.aliasName == a) = true
    · have hxe : x = e := by
        unfold lookupEntry at hl
        rw [List.find?_cons, hx] at hl
        cases hl
        rfl
      have hrest : ∀ y ∈ xs, ¬(y.aliasName == a) = true := by
        intro y hy hya
        have h1 : x.aliasName = a := by simpa using hx
        have h2 : y.aliasName = a := by simpa using hya
        have : x.aliasName ∈ xs.map (fun z => z.aliasName) := by
          rw [h1, ← h2]
          exact List.mem_map_of_mem _ hy
        exact (List.nodup_cons.mp hnd).1 this
      simp only [updateEntry, List.map_cons, if_pos hx]
      rw [← hxe, map_no_match xs a _ hrest]
    · have hxf : (x.aliasName == a) = false := by simpa using hx
      have hl' : lookupEntry xs a = some e := by
        unfold lookupEntry at hl ⊢
        rw [List.find?_cons, hxf] at hl
        exact hl
      simp only [updateEntry, List.map_cons, if_neg hx]
      exact congrArg (fun l => x :: l) (ih hl' (List.nodup_cons.mp hnd).2)

/-- An open_tables run that fails always makes mysql_ha_open on the
reopen path fail. -/
lemma openPhase2_otError_fails (t0 : THD) (a : String) (r : Bool)
    (env : OpenEnv) (he : env.otError = true) :
    (openPhase2 t0 a r env).2.isSome = true := by
  unfold openPhase2
  cases henv : env.otTables with
  | nil =>
    simp only [henv, he, if_true]
    rw [openErr_snd]
    rfl
  | cons t ts =>
    cases ts with
    | nil =>
      simp only [henv, he, if_true]
      rw [openErr_snd]
      rfl
    | cons t2 ts2 =>
      simp only [henv, eq_self_iff_true, if_true]
      rw [openErr_snd]
      rfl

/-- A failed reopen: whenever open_tables reports an error, the whole
mysql_ha_open(reopen = true) call reports an error. -/
lemma reopen_fails_of_otError (thd : THD) (e : Entry) (env : OpenEnv)
    (he : env.otError = true) :
    (mysql_ha_open thd e true env).2.isSome = true := by
  unfold mysql_ha_open
  by_cases h1 : thd.lockedTablesMode = true
  · simp [h1]
  · by_cases h2 : e.schemaTable = true
    · simp [h1, h2]
    · simp only [if_neg h1, if_neg h2, eq_self_iff_true, if_true]
      exact openPhase2_otError_fails thd e.aliasName true env he

/-- A successful re-open with a single fresh table object t that has no
MDL ticket: mysql_ha_open(reopen = true) succeeds and produces exactly
the session state with the entry re-pointed at t (marked
open_by_handler), t linked into thd->handler_tables, and t's object id
recorded open. -/
lemma reopen_success (thd : THD) (e : Entry) (env : OpenEnv) (t : Table)
    (hl : lookupEntry thd.cache e.aliasName = some e)
    (hlock : thd.lockedTablesMode = false)
    (hschema : e.schemaTable = false)
    (he0 : env.otError = false) (ht0 : env.otTables = [t])
    (htk0 : env.otTickets = []) (hcs : t.canSqlHandler = true) :
    mysql_ha_open thd e true env =
      ({ thd with
          cache := updateEntry (updateEntry thd.cache e.aliasName
              (fun x => { x with table := some t })) e.aliasName
            (fun x => { x with table := some { t with openByHandler := true } }),
          handlerTables := (t :: thd.handlerTables).map
            (fun h => if h.id == t.id then { h with openByHandler := true } else h),
          liveObjs := thd.liveObjs ++ [t.id],
          handlerMdl := thd.handlerMdl ++ [] }, none) := by
  have hlk : (lookupEntry (updateEntry thd.cache e.aliasName
      (fun x => { x with table := some t })) e.aliasName).bind
      (fun x => x.table) = some t := by
    rw [lookup_updateEntry thd.cache e.aliasName
      (fun x => { x with table := some t }) (fun _ => rfl), hl]
    rfl
  simp only [mysql_ha_open,
    if_neg (show ¬(thd.lockedTablesMode = true) by simp [hlock]),
    if_neg (show ¬(e.schemaTable = true) by simp [hschema]),
    eq_self_iff_true, if_true]
  simp only [openPhase2, ht0, htk0, List.map_cons, List.map_nil,
    List.head?_cons, he0, Bool.false_eq_true, if_false, hlk, hcs, if_true]

/-- One needs-reopen iteration of the retry loop of mysql_ha_read:
starting from an entry whose cursor is closed, the loop re-opens it
(one fresh object t, no ticket), locks, is told needs-reopen, closes the
handler table again and restarts from the lookup — with the session
state restored exactly and one reopen, one lock attempt and one close
added to the tally. -/
lemma readRetry_cycle (a : String) (kn : Bool) (cond : Option (Row → Bool))
    (sendOk : Row → Bool) (limit offset : Nat) (renv : ReadEnv)
    (thd : THD) (e : Entry) (t : Table) (it : ReadIterEnv)
    (rest : List ReadIterEnv) (st : Stats)
    (hl : lookupEntry thd.cache a = some e)
    (htbl : e.table = none)
    (hlock : thd.lockedTablesMode = false)
    (hschema : e.schemaTable = false)
    (he0 : it.openEnv.otError = false) (ht0 : it.openEnv.otTables = [t])
    (htk0 : it.openEnv.otTickets = []) (hcs : t.canSqlHandler = true)
    (hmdlt : t.mdlTicket = none)
    (hnr : it.needReopen = true)
    (hidL : t.id ∉ thd.liveObjs)
    (hidH : ∀ h ∈ thd.handlerTables, h.id ≠ t.id)
    (hnd : (thd.cache.map (fun x => x.aliasName)).Nodup) :
    readRetry a kn cond sendOk limit offset renv thd (it :: rest) st =
      readRetry a kn cond sendOk limit offset renv thd rest
        ⟨st.reopens + 1, st.lockAttempts + 1, st.closes + 1⟩ := by
  have hea : e.aliasName = a := by
    simpa using lookupEntry_beq thd.cache a e hl
  subst hea
  have hee : ({ e with table := none } : Entry) = e := by
    cases e
    simp only at htbl
    simp [htbl]
  have hcomp : updateEntry (updateEntry thd.cache e.aliasName
      (fun x => { x with table := some t })) e.aliasName
      (fun x => { x with table := some { t with openByHandler := true } }) =
      updateEntry thd.cache e.aliasName
        (fun x => { x with table := some { t with openByHandler := true } }) := by
    rw [updateEntry_comp thd.cache e.aliasName
      (fun x => { x with table := some t })
      (fun x => { x with table := some { t with openByHandler := true } })
      (fun _ => rfl)]
  have hlookR : lookupEntry (updateEntry thd.cache e.aliasName
      (fun x => { x with table := some { t with openByHandler := true } }))
      e.aliasName =
      some { e with table := some { t with openByHandler := true } } := by
    rw [lookup_updateEntry thd.cache e.aliasName
      (fun x => { x with table := some { t with openByHandler := true } })
      (fun _ => rfl), hl]
    rfl
  have hmap : (t :: thd.handlerTables).map
      (fun h => if h.id == t.id then { h with openByHandler := true } else h) =
      { t with openByHandler := true } :: thd.handlerTables := by
    simp only [List.map_cons, beq_self_eq_true, if_true]
    refine congrArg _ ?_
    have hcongr : ∀ h ∈ thd.handlerTables,
        (if h.id == t.id then { h with openByHandler := true } else h) = h :=
      fun h hh => if_neg (by simp [hidH h hh])
    rw [List.map_congr_left hcongr]
    exact List.map_id' thd.handlerTables
  have herase : (thd.liveObjs ++ [t.id]).erase t.id = thd.liveObjs :=
    erase_append_self _ _ hidL
  have heraseP : List.eraseP (fun h => h.id == t.id)
      ({ t with openByHandler := true } :: thd.handlerTables) =
      thd.handlerTables := by
    simp [List.eraseP_cons]
  have hany : (({ t with openByHandler := true } : Table) ::
      thd.handlerTables).any (fun h => h.id == t.id) = true := by
    simp
  have hhm : (match t.mdlTicket with
      | some tk => thd.handlerMdl.erase tk
      | none => thd.handlerMdl) = thd.handlerMdl := by
    rw [hmdlt]
  have hcache2 : updateEntry (updateEntry thd.cache e.aliasName
      (fun x => { x with table := some { t with openByHandler := true } }))
      e.aliasName
      (fun _ => { e with table := none }) = thd.cache := by
    rw [updateEntry_comp thd.cache e.aliasName
      (fun x => { x with table := some { t with openByHandler := true } })
      (fun _ => { e with table := none })
      (fun _ => rfl), hee]
    exact updateEntry_const_self thd.cache e.aliasName e hl hnd
  simp only [readRetry, hl, htbl]
  rw [reopen_success thd e it.openEnv t hl hlock hschema he0 ht0 htk0 hcs]
  simp only [Option.isSome_none, Bool.false_eq_true, if_false, hnr, if_true,
    List.append_nil]
  rw [hcomp, hlookR]
  simp only [mysql_ha_close_table, hmap, hany, if_true, heraseP, herase,
    hhm, hcache2]

/-- The terminating iteration of the retry loop: the entry's cursor is
absent, the re-open succeeds, mysql_lock_tables grants the lock without
needs-reopen, and control reaches the post-lock body — with exactly one
reopen and one lock attempt added to the tally. -/
lemma readRetry_final (a : String) (kn : Bool) (cond : Option (Row → Bool))
    (sendOk : Row → Bool) (limit offset : Nat) (renv : ReadEnv)
    (thd : THD) (e : Entry) (t : Table) (it : ReadIterEnv)
    (rest : List ReadIterEnv) (st : Stats)
    (hl : lookupEntry thd.cache a = some e)
    (htbl : e.table = none)
    (hlock : thd.lockedTablesMode = false)
    (hschema : e.schemaTable = false)
    (he0 : it.openEnv.otError = false) (ht0 : it.openEnv.otTables = [t])
    (htk0 : it.openEnv.otTickets = []) (hcs : t.canSqlHandler = true)
    (hnr : it.needReopen = false)
    (hlk : it.lockOk = true) :
    (readRetry a kn cond sendOk limit offset renv thd (it :: rest) st).2 =
      (readBodyOut kn cond sendOk limit offset renv,
        ⟨st.reopens + 1, st.lockAttempts + 1, st.closes⟩) := by
  have hea : e.aliasName = a := by
    simpa using lookupEntry_beq thd.cache a e hl
  subst hea
  simp only [readRetry, hl, htbl]
  rw [reopen_success thd e it.openEnv t hl hlock hschema he0 ht0 htk0 hcs]
  simp only [Option.isSome_none, Bool.false_eq_true, if_false, hnr, hlk,
    Bool.not_true, if_true]

/-- C3: when the looked-up entry's cursor is absent, mysql_ha_read first
performs an internal mysql_ha_open(reopen = true) and surfaces that
open's failure; and whenever mysql_lock_tables reports needs-reopen, the
read closes the handler table and restarts from the cache lookup — for
every number k of consecutive needs-reopen reports, the read performs
k + 1 lock attempts and k closes (and the k re-opens the closes force),
then proceeds to the row-producing body once the lock acquisition stops
reporting needs-reopen: the retries have no fixed bound. -/
theorem c3_read_reopen_and_unbounded_retry :
    (∀ (a : String) (kn : Bool) (cond : Option (Row → Bool))
       (sendOk : Row → Bool) (limit offset : Nat) (renv : ReadEnv)
       (thd : THD) (e : Entry) (it : ReadIterEnv) (rest : List ReadIterEnv),
      thd.lockedTablesMode = false →
      lookupEntry thd.cache a = some e →
      e.table = none →
      it.openEnv.otError = true →
      (mysql_ha_read thd a kn cond sendOk limit offset renv (it :: rest)).2 =
        (.err .reopenFail [], ⟨1, 0, 0⟩)) ∧
    (∀ (a : String) (kn : Bool) (cond : Option (Row → Bool))
       (sendOk : Row → Bool) (limit offset : Nat) (renv : ReadEnv)
       (thd : THD) (e : Entry) (t t2 : Table) (rit fit : ReadIterEnv)
       (k : Nat),
      thd.lockedTablesMode = false →
      lookupEntry thd.cache a = some e →
      e.table = none →
      e.schemaTable = false →
      rit.openEnv.otError = false → rit.openEnv.otTables = [t] →
      rit.openEnv.otTickets = [] → t.canSqlHandler = true →
      t.mdlTicket = none →
      rit.needReopen = true →
      t.id ∉ thd.liveObjs →
      (∀ h ∈ thd.handlerTables, h.id ≠ t.id) →
      (thd.cache.map (fun x => x.aliasName)).Nodup →
      fit.openEnv.otError = false → fit.openEnv.otTables = [t2] →
      fit.openEnv.otTickets = [] → t2.canSqlHandler = true →
      fit.needReopen = false → fit.lockOk = true →
      (mysql_ha_read thd a kn cond sendOk limit offset renv
          (List.replicate k rit ++ [fit])).2 =
        (readBodyOut kn cond sendOk limit offset renv, ⟨k + 1, k + 1, k⟩)) := by
  constructor
  · intro a kn cond sendOk limit offset renv thd e it rest hlock hl htbl hot
    have hfail : (mysql_ha_open thd e true it.openEnv).2.isSome = true :=
      reopen_fails_of_otError thd e it.openEnv hot
    simp only [mysql_ha_read,
      if_neg (show ¬(thd.lockedTablesMode = true) by simp [hlock])]
    simp only [readRetry, hl, htbl, hfail, if_true]
    rfl
  · intro a kn cond sendOk limit offset renv thd e t t2 rit fit k hlock hl
      htbl hschema hre0 hrt0 hrtk0 hrcs hrmdl hrnr hidL hidH hnd hfe0 hft0
      hftk0 hfcs hfnr hflk
    simp only [mysql_ha_read,
      if_neg (show ¬(thd.lockedTablesMode = true) by simp [hlock])]
    have aux : ∀ (n : Nat) (st : Stats),
        (readRetry a kn cond sendOk limit offset renv thd
            (List.replicate n rit ++ [fit]) st).2 =
          (readBodyOut kn cond sendOk limit offset renv,
            ⟨st.reopens + n + 1, st.lockAttempts + n + 1, st.closes + n⟩) := by
      intro n
      induction n with
      | zero =>
        intro st
        simp only [List.replicate, List.nil_append]
        rw [readRetry_final a kn cond sendOk limit offset renv thd e t2 fit
          [] st hl htbl hlock hschema hfe0 hft0 hftk0 hfcs hfnr hflk]
        simp
      | succ m ih =>
        intro st
        simp only [List.replicate, List.cons_append]
        rw [readRetry_cycle a kn cond sendOk limit offset renv thd e t rit
          (List.replicate m rit ++ [fit]) st hl htbl hlock hschema hre0
          hrt0 hrtk0 hrcs hrmdl hrnr hidL hidH hnd]
        rw [ih ⟨st.reopens + 1, st.lockAttempts + 1, st.closes + 1⟩]
        refine congrArg _ ?_
        simp only [Stats.mk.injEq]
        omega
    have h0 := aux k stats0
    rw [h0]
    refine congrArg _ ?_
    simp only [Stats.mk.injEq, stats0]
    omega

/-- Witness for c3_read_reopen_and_unbounded_retry: a session whose only
entry has a closed cursor; a read whose first re-open fails surfaces the
failure, and a read facing two needs-reopen lock attempts closes twice,
locks three times, re-opens and then runs the row loop. -/
theorem c3_read_reopen_and_unbounded_retry_witness :
    (mysql_ha_read
        { cache := [{ db := "d", tableName := "t", aliasName := "h1",
                      schemaTable := false, table := none }],
          openTables := [], handlerTables := [], mdlContext := [],
          handlerMdl := [], liveObjs := [], lockedTablesMode := false }
        "h1" false none (fun _ => true) 5 0
        { condFixOk := true, keynoOk := true, insertFieldsOk := true,
          fetches := [.row 5, .eof] }
        ({ openEnv := { mallocOk := true, insertOk := true, otError := true,
                        otTables := [], otTickets := [] },
           needReopen := false, lockOk := true } :: [])).2 =
      (.err .reopenFail [], ⟨1, 0, 0⟩) ∧
    (mysql_ha_read
        { cache := [{ db := "d", tableName := "t", aliasName := "h1",
                      schemaTable := false, table := none }],
          openTables := [], handlerTables := [], mdlContext := [],
          handlerMdl := [], liveObjs := [], lockedTablesMode := false }
        "h1" false none (fun _ => true) 5 0
        { condFixOk := true, keynoOk := true, insertFieldsOk := true,
          fetches := [.row 5, .eof] }
        (List.replicate 2
          { openEnv := { mallocOk := true, insertOk := true, otError := false,
                         otTables := [⟨7, none, false, false, true, false, 0⟩],
                         otTickets := [] },
            needReopen := true, lockOk := true } ++
         [{ openEnv := { mallocOk := true, insertOk := true, otError := false,
                         otTables := [⟨7, none, false, false, true, false, 0⟩],
                         otTickets := [] },
            needReopen := false, lockOk := true }])).2 =
      (readBodyOut false none (fun _ => true) 5 0
        { condFixOk := true, keynoOk := true, insertFieldsOk := true,
          fetches := [.row 5, .eof] }, ⟨3, 3, 2⟩) :=
  ⟨c3_read_reopen_and_unbounded_retry.1 "h1" false none (fun _ => true) 5 0
      { condFixOk := true, keynoOk := true, insertFieldsOk := true,
        fetches := [.row 5, .eof] }
      { cache := [{ db := "d", tableName := "t", aliasName := "h1",
                    schemaTable := false, table := none }],
        openTables := [], handlerTables := [], mdlContext := [],
        handlerMdl := [], liveObjs := [], lockedTablesMode := false }
      { db := "d", tableName := "t", aliasName := "h1",
        schemaTable := false, table := none }
      { openEnv := { mallocOk := true, insertOk := true, otError := true,
                     otTables := [], otTickets := [] },
        needReopen := false, lockOk := true } [] rfl (by decide) rfl rfl,
   c3_read_reopen_and_unbounded_retry.2 "h1" false none (fun _ => true) 5 0
      { condFixOk := true, keynoOk := true, insertFieldsOk := true,
        fetches := [.row 5, .eof] }
      { cache := [{ db := "d", tableName := "t", aliasName := "h1",
                    schemaTable := false, table := none }],
        openTables := [], handlerTables := [], mdlContext := [],
        handlerMdl := [], liveObjs := [], lockedTablesMode := false }
      { db := "d", tableName := "t", aliasName := "h1",
        schemaTable := false, table := none }
      ⟨7, none, false, false, true, false, 0⟩
      ⟨7, none, false, false, true, false, 0⟩
      { openEnv := { mallocOk := true, insertOk := true, otError := false,
                     otTables := [⟨7, none, false, false, true, false, 0⟩],
                     otTickets := [] },
        needReopen := true, lockOk := true }
      { openEnv := { mallocOk := true, insertOk := true, otError := false,
                     otTables := [⟨7, none, false, false, true, false, 0⟩],
                     otTickets := [] },
        needReopen := false, lockOk := true }
      2 rfl (by decide) rfl rfl rfl rfl rfl rfl rfl rfl (by decide)
      (by decide) (by decide) rfl rfl rfl rfl rfl rfl⟩

/-- Counterexample to C9 as stated: mysql_ha_close (HANDLER CLOSE)
deletes the hash entry, so a subsequent read on the same alias fails
with ER_UNKNOWN_TABLE and performs no internal re-open at all — it does
not transparently re-open the handle. -/
theorem c9_counterexample :
    (mysql_ha_read
        (mysql_ha_close
          { cache := [{ db := "d", tableName := "t", aliasName := "h1",
                        schemaTable := false,
                        table := some ⟨1, some 11, false, false, true, true, 0⟩ }],
            openTables := [],
            handlerTables := [⟨1, some 11, false, false, true, true, 0⟩],
            mdlContext := [], handlerMdl := [11], liveObjs := [1],
            lockedTablesMode := false }
          "h1").1
        "h1" false none (fun _ => true) 5 0
        { condFixOk := true, keynoOk := true, insertFieldsOk := true,
          fetches := [.row 5, .eof] }
        [{ openEnv := { mallocOk := true, insertOk := true, otError := false,
                        otTables := [⟨1, none, false, false, true, false, 0⟩],
                        otTickets := [] },
           needReopen := false, lockOk := true }]).2 =
      (.err .unknownTable [], ⟨0, 0, 0⟩) := by
  rfl

/-- C9 (amended): an invalidation close (mysql_ha_close_table, as run by
flush or the needs-reopen path) leaves the entry cached with its cursor
absent, and the next read on that alias transparently re-opens the
handle exactly once — one internal reopen, one lock attempt — before
running the row-producing body; after mysql_ha_close (HANDLER CLOSE),
by contrast, the entry is gone and a read on the alias fails with
ER_UNKNOWN_TABLE. -/
theorem c9_close_table_then_read_reopens_once :
    (∀ (thd : THD) (e : Entry), ((mysql_ha_close_table thd e).2).table = none) ∧
    (∀ (a : String) (kn : Bool) (cond : Option (Row → Bool))
       (sendOk : Row → Bool) (limit offset : Nat) (renv : ReadEnv)
       (thd : THD) (e : Entry) (t : Table) (it : ReadIterEnv)
       (rest : List ReadIterEnv),
      thd.lockedTablesMode = false →
      lookupEntry thd.cache a = some e →
      e.table = none →
      e.schemaTable = false →
      it.openEnv.otError = false → it.openEnv.otTables = [t] →
      it.openEnv.otTickets = [] → t.canSqlHandler = true →
      it.needReopen = false → it.lockOk = true →
      (mysql_ha_read thd a kn cond sendOk limit offset renv (it :: rest)).2 =
        (readBodyOut kn cond sendOk limit offset renv, ⟨1, 1, 0⟩)) ∧
    (∀ (a : String) (kn : Bool) (cond : Option (Row → Bool))
       (sendOk : Row → Bool) (limit offset : Nat) (renv : ReadEnv)
       (thd : THD) (it : ReadIterEnv) (rest : List ReadIterEnv),
      thd.lockedTablesMode = false →
      lookupEntry thd.cache a = none →
      (mysql_ha_read thd a kn cond sendOk limit offset renv (it :: rest)).2 =
        (.err .unknownTable [], stats0)) := by
  refine ⟨fun thd e => close_table_entry thd e ▸ rfl, ?_, ?_⟩
  · intro a kn cond sendOk limit offset renv thd e t it rest hlock hl htbl
      hschema he0 ht0 htk0 hcs hnr hlk
    simp only [mysql_ha_read,
      if_neg (show ¬(thd.lockedTablesMode = true) by simp [hlock])]
    exact readRetry_final a kn cond sendOk limit offset renv thd e t it rest
      stats0 hl htbl hlock hschema he0 ht0 htk0 hcs hnr hlk
  · intro a kn cond sendOk limit offset renv thd it rest hlock hl
    simp only [mysql_ha_read,
      if_neg (show ¬(thd.lockedTablesMode = true) by simp [hlock])]
    simp only [readRetry, hl]

/-- Witness for c9_close_table_then_read_reopens_once: closing the
cursor of a cached entry by invalidation, then reading its alias with a
succeeding re-open and lock runs the row loop after exactly one reopen;
and a read on an absent alias fails. -/
theorem c9_close_table_then_read_reopens_once_witness :
    ((mysql_ha_close_table
        { cache := [{ db := "d", tableName := "t", aliasName := "h1",
                      schemaTable := false,
                      table := some ⟨1, some 11, false, false, true, true, 0⟩ }],
          openTables := [],
          handlerTables := [⟨1, some 11, false, false, true, true, 0⟩],
          mdlContext := [], handlerMdl := [11], liveObjs := [1],
          lockedTablesMode := false }
        { db := "d", tableName := "t", aliasName := "h1",
          schemaTable := false,
          table := some ⟨1, some 11, false, false, true, true, 0⟩ }).2).table
      = none ∧
    (mysql_ha_read
        { cache := [{ db := "d", tableName := "t", aliasName := "h1",
                      schemaTable := false, table := none }],
          openTables := [], handlerTables := [], mdlContext := [],
          handlerMdl := [], liveObjs := [], lockedTablesMode := false }
        "h1" false none (fun _ => true) 5 0
        { condFixOk := true, keynoOk := true, insertFieldsOk := true,
          fetches := [.row 5, .eof] }
        ({ openEnv := { mallocOk := true, insertOk := true, otError := false,
                        otTables := [⟨2, none, false, false, true, false, 0⟩],
                        otTickets := [] },
           needReopen := false, lockOk := true } :: [])).2 =
      (readBodyOut false none (fun _ => true) 5 0
        { condFixOk := true, keynoOk := true, insertFieldsOk := true,
          fetches := [.row 5, .eof] }, ⟨1, 1, 0⟩) ∧
    (mysql_ha_read
        { cache := [], openTables := [], handlerTables := [],
          mdlContext := [], handlerMdl := [], liveObjs := [],
          lockedTablesMode := false }
        "h1" false none (fun _ => true) 5 0
        { condFixOk := true, keynoOk := true, insertFieldsOk := true,
          fetches := [.row 5, .eof] }
        ({ openEnv := { mallocOk := true, insertOk := true, otError := false,
                        otTables := [], otTickets := [] },
           needReopen := false, lockOk := true } :: [])).2 =
      (.err .unknownTable [], stats0) :=
  ⟨c9_close_table_then_read_reopens_once.1
      { cache := [{ db := "d", tableName := "t", aliasName := "h1",
                    schemaTable := false,
                    table := some ⟨1, some 11, false, false, true, true, 0⟩ }],
        openTables := [],
        handlerTables := [⟨1, some 11, false, false, true, true, 0⟩],
        mdlContext := [], handlerMdl := [11], liveObjs := [1],
        lockedTablesMode := false }
      { db := "d", tableName := "t", aliasName := "h1",
        schemaTable := false,
        table := some ⟨1, some 11, false, false, true, true, 0⟩ },
   c9_close_table_then_read_reopens_once.2.1 "h1" false none (fun _ => true)
      5 0
      { condFixOk := true, keynoOk := true, insertFieldsOk := true,
        fetches := [.row 5, .eof] }
      { cache := [{ db := "d", tableName := "t", aliasName := "h1",
                    schemaTable := false, table := none }],
        openTables := [], handlerTables := [], mdlContext := [],
        handlerMdl := [], liveObjs := [], lockedTablesMode := false }
      { db := "d", tableName := "t", aliasName := "h1",
        schemaTable := false, table := none }
      ⟨2, none, false, false, true, false, 0⟩
      { openEnv := { mallocOk := true, insertOk := true, otError := false,
                     otTables := [⟨2, none, false, false, true, false, 0⟩],
                     otTickets := [] },
        needReopen := false, lockOk := true } [] rfl (by decide) rfl rfl rfl
      rfl rfl rfl rfl rfl,
   c9_close_table_then_read_reopens_once.2.2 "h1" false none (fun _ => true)
      5 0
      { condFixOk := true, keynoOk := true, insertFieldsOk := true,
        fetches := [.row 5, .eof] }
      { cache := [], openTables := [], handlerTables := [], mdlContext := [],
        handlerMdl := [], liveObjs := [], lockedTablesMode := false }
      { openEnv := { mallocOk := true, insertOk := true, otError := false,
                     otTables := [], otTickets := [] },
        needReopen := false, lockOk := true } [] rfl rfl⟩

end SqlHandler
